import Mathlib

/-!
# Webhook order pipeline (`api/webhook.js`)

A shallow embedding of the webhook module: JavaScript values, the collaborators
the module calls (one-time-code generator, broker session, HTTP fetch of the
instrument master, order submission, `JSON.parse`, the logger), and the
functions `fetchJsonData`, `fetchSymbolToken`, `calculateQuantity`,
`processStockOrder` and `handler`.

Modelling conventions.

* A computation is a `Run α`: the list of events it emitted (collaborator
  calls and log lines, in program order) and either a value or a thrown
  JavaScript value.  `try`/`catch` is `Run.tryCatch`.
* Numbers are `JsNum`, binary64 values: `NaN`, or a sign with an infinite or a
  finite magnitude (so the two zeros are distinct).  A finite magnitude is a
  rational; reading a decimal literal and dividing round to nearest, ties to
  even, overflow to infinity and underflow to zero (`roundMagnitude`).
* `String.prototype.toUpperCase` is a function of the runtime whose Unicode
  case tables are not part of the module: it is the field `toUpperCase` of
  `World`, and every statement holds for every such function.
* `logger`, `pyotp`, `SmartAPI`, `fetch` and `JSON.parse` are collaborators:
  their outcomes are the fields of `World`.  The module uses `logger`, `pyotp`
  and `parse` without declaring them; they are taken as given, the logger as
  one that does not throw, and the object built by `parse` as the `Credentials`
  parameter.  Constructing `SmartAPI` does not throw.
-/

namespace Webhook

/-! ## JavaScript values -/

/-- The magnitude of a number: infinite, or a finite non-negative rational. -/
inductive Magnitude where
  | inf
  | fin (q : ℚ)
deriving DecidableEq

/-- A JavaScript number: `NaN`, or a sign and a magnitude.  `val false (fin 0)`
is `+0` and `val true (fin 0)` is `-0`. -/
inductive JsNum where
  | nan
  | val (negative : Bool) (m : Magnitude)
deriving DecidableEq

/-- The number denoted by a natural-number literal. -/
def JsNum.ofNat (n : ℕ) : JsNum := .val false (.fin (n : ℚ))

/-- The integer `⌊log₂ n⌋` for positive `n`, by halving at most `fuel` times. -/
def log2Fuel : ℕ → ℕ → ℕ
  | 0, _ => 0
  | fuel + 1, n => if n < 2 then 0 else log2Fuel fuel (n / 2) + 1

/-- The integer `⌊log₂ n⌋` for positive `n`. -/
def log2 (n : ℕ) : ℕ := log2Fuel n n

/-- The integer `⌊log₂ (n / d)⌋`, for positive `n` and `d`. -/
def binaryExponent (n d : ℕ) : ℤ :=
  let k : ℤ := (log2 n : ℤ) - (log2 d : ℤ)
  if 0 ≤ k then (if d * 2 ^ k.toNat ≤ n then k else k - 1)
  else (if d ≤ n * 2 ^ (-k).toNat then k else k - 1)

/-- The integer nearest to `n / d`, a tie going to the even one (`d` positive). -/
def roundHalfEven (n d : ℕ) : ℕ :=
  let f := n / d
  let r := n % d
  if 2 * r < d then f else if d < 2 * r then f + 1 else if f % 2 = 0 then f else f + 1

/-- Round the magnitude `|q|` to binary64: to nearest, ties to even.  The unit
in the last place is `2 ^ s` with `s = max ⌊log₂ |q|⌋ (-1022) - 52` (the
subnormal range has the fixed unit `2 ^ (-1074)`); a rounded value of
`2 ^ 1024` or more is infinite. -/
def roundMagnitude (q : ℚ) : Magnitude :=
  let n := q.num.natAbs
  let d := q.den
  if n = 0 then .fin 0
  else
    let s := max (binaryExponent n d) (-1022) - 52
    if 0 ≤ s then
      let m := roundHalfEven n (d * 2 ^ s.toNat)
      if 2 ^ 1024 ≤ m * 2 ^ s.toNat then .inf else .fin ((m * 2 ^ s.toNat : ℕ) : ℚ)
    else
      .fin (mkRat (roundHalfEven (n * 2 ^ (-s).toNat) d) (2 ^ (-s).toNat))

/-- The binary64 magnitude nearest to a magnitude (the identity on binary64
values). -/
def Magnitude.round : Magnitude → Magnitude
  | .inf => .inf
  | .fin q => roundMagnitude q

/-- The binary64 number nearest to a number (the identity on binary64
values). -/
def JsNum.toDouble : JsNum → JsNum
  | .nan => .nan
  | .val negative m => .val negative m.round

/-- A JavaScript value as it can arrive in a JSON body, a configuration entry,
or a collaborator's result.  A number stands for the binary64 value nearest to
it.  An object is an association list; the first binding of a key is the one
property access sees. -/
inductive JsVal where
  | undefined
  | null
  | bool (b : Bool)
  | num (n : JsNum)
  | str (s : String)
  | arr (items : List JsVal)
  | obj (fields : List (String × JsVal))

/-- A thrown `TypeError` with the given message. -/
def typeError (msg : String) : JsVal :=
  .obj [("name", .str "TypeError"), ("message", .str msg)]

/-- Truthiness of a number: `NaN`, `+0` and `-0` are falsy. -/
def JsNum.truthy : JsNum → Bool
  | .nan => false
  | .val _ .inf => true
  | .val _ (.fin q) => decide (q ≠ 0)

/-- Truthiness (`ToBoolean`): `undefined`, `null`, `false`, `NaN`, `0` and the
empty string are falsy; everything else, every array and object included, is
truthy. -/
def truthy : JsVal → Bool
  | .undefined => false
  | .null => false
  | .bool b => b
  | .num n => n.toDouble.truthy
  | .str s => decide (s ≠ "")
  | .arr _ => true
  | .obj _ => true

/-- Property read `v.k` for the keys this module reads.  Reading a property of
`undefined` or `null` throws a `TypeError`; an object yields the bound value or
`undefined`; the other values have none of these keys. -/
def getProp (v : JsVal) (k : String) : Except JsVal JsVal :=
  match v with
  | .undefined => .error (typeError "Cannot read properties of undefined")
  | .null => .error (typeError "Cannot read properties of null")
  | .obj fields => .ok ((fields.lookup k).getD .undefined)
  | _ => .ok .undefined

/-! ## Strings -/

/-- The method call `v.toUpperCase()`: the runtime's upper-casing on a string, a
`TypeError` on any other value. -/
def callToUpperCase (upper : String → String) (v : JsVal) : Except JsVal String :=
  match v with
  | .str s => .ok (upper s)
  | .undefined => .error (typeError "Cannot read properties of undefined")
  | .null => .error (typeError "Cannot read properties of null")
  | _ => .error (typeError "toUpperCase is not a function")

/-- The expression `s.split("-")[0]` on a string: the part before the first
`-`, the whole string when it has none. -/
def splitFirst (s : String) : String := String.mk (s.data.takeWhile (fun c => c != '-'))

/-- The expression `v.split("-")[0]`: defined on strings, a `TypeError` on any
other value. -/
def callSplitFirst (v : JsVal) : Except JsVal String :=
  match v with
  | .str s => .ok (splitFirst s)
  | .undefined => .error (typeError "Cannot read properties of undefined")
  | .null => .error (typeError "Cannot read properties of null")
  | _ => .error (typeError "split is not a function")

/-! ## Numbers: `parseFloat`, `/`, `Math.floor`, `Math.max`, `||` -/

/-- White space and line terminators skipped by `parseFloat`. -/
def isJsSpace (c : Char) : Bool :=
  let n := c.toNat
  (9 ≤ n && n ≤ 13) || n == 32 || n == 160 || n == 5760 || (8192 ≤ n && n ≤ 8202) ||
    n == 8232 || n == 8233 || n == 8239 || n == 8287 || n == 12288 || n == 65279

/-- Value of a run of decimal digits. -/
def digitsVal (ds : List Char) : ℕ :=
  ds.foldl (fun acc c => 10 * acc + (c.toNat - 48)) 0

/-- The exponent part after the mantissa: `e` or `E`, an optional sign and at
least one digit; anything else contributes no exponent. -/
def parseExponent (cs : List Char) : ℤ :=
  match cs with
  | [] => 0
  | e :: t =>
    if e = 'e' ∨ e = 'E' then
      match t with
      | '-' :: d => -((digitsVal (d.takeWhile Char.isDigit) : ℕ) : ℤ)
      | '+' :: d => ((digitsVal (d.takeWhile Char.isDigit) : ℕ) : ℤ)
      | d => ((digitsVal (d.takeWhile Char.isDigit) : ℕ) : ℤ)
    else 0

/-- The longest prefix that is an unsigned decimal literal, as
`(digits, number of fraction digits, exponent)`; `none` when no prefix is one. -/
def parseDecimal (cs : List Char) : Option (ℕ × ℕ × ℤ) :=
  let ip := cs.takeWhile Char.isDigit
  let r1 := cs.dropWhile Char.isDigit
  match r1 with
  | '.' :: t =>
    let fp := t.takeWhile Char.isDigit
    if ip.isEmpty && fp.isEmpty then none
    else some (digitsVal (ip ++ fp), fp.length, parseExponent (t.dropWhile Char.isDigit))
  | _ =>
    if ip.isEmpty then none else some (digitsVal ip, 0, parseExponent r1)

/-- The rational denoted by `(digits, fraction digits, exponent)`:
`digits * 10 ^ (exponent - fraction digits)`. -/
def decimalValue (d : ℕ × ℕ × ℤ) : ℚ :=
  let x := d.2.2 - (d.2.1 : ℤ)
  if 0 ≤ x then ((d.1 * 10 ^ x.toNat : ℕ) : ℚ) else mkRat d.1 (10 ^ (-x).toNat)

/-- What `parseFloat` reads off a string: nothing numeric, a signed
`Infinity`, or a signed decimal literal. -/
inductive NumLit where
  | none
  | inf (negative : Bool)
  | dec (negative : Bool) (d : ℕ × ℕ × ℤ)
deriving DecidableEq

/-- The unsigned part seen by `parseFloat`: `Infinity` or a decimal literal. -/
def scanUnsigned (negative : Bool) (cs : List Char) : NumLit :=
  if "Infinity".data.isPrefixOf cs then .inf negative
  else match parseDecimal cs with
    | some d => .dec negative d
    | Option.none => .none

/-- Scanning done by `parseFloat` on a string: skip leading white space, read
an optional sign, then the longest numeric prefix. -/
def scanFloat (s : String) : NumLit :=
  match s.data.dropWhile isJsSpace with
  | '-' :: t => scanUnsigned true t
  | '+' :: t => scanUnsigned false t
  | t => scanUnsigned false t

/-- The number a scanned literal denotes, rounded to binary64; `NaN` when
nothing numeric was read. -/
def NumLit.value : NumLit → JsNum
  | .none => .nan
  | .inf negative => .val negative .inf
  | .dec negative d => .val negative (roundMagnitude (decimalValue d))

/-- The function `parseFloat` on a string. -/
def parseFloatStr (s : String) : JsNum := (scanFloat s).value

/-- A number printed and read back: itself, except that `-0` prints as `0`. -/
def JsNum.reparse : JsNum → JsNum
  | .val true (.fin q) => if q = 0 then .val false (.fin 0) else .val true (.fin q)
  | n => n

/-- The function `parseFloat` on a value.  The argument is first converted to
a string: a number prints and parses back to itself; `undefined`, `null`,
booleans and plain objects print to text with no numeric prefix; an array
prints its elements joined by commas, so only its first element can contribute
a numeric prefix. -/
def parseFloat : JsVal → JsNum
  | .num n => n.toDouble.reparse
  | .str s => parseFloatStr s
  | .arr (x :: _) => parseFloat x
  | _ => .nan

/-- The number is finite and greater than zero. -/
def JsNum.isPositiveFinite : JsNum → Bool
  | .val false (.fin q) => decide (0 < q)
  | _ => false

/-- The expression `a || b` on numbers. -/
def JsNum.orElse (a b : JsNum) : JsNum := if a.truthy then a else b

/-- The exact quotient `a / b`, computed on numerators and denominators. -/
def exactQuotient (a b : ℚ) : ℚ := Rat.divInt (a.num * b.den) (a.den * b.num)

/-- Division of magnitudes; `none` stands for `NaN` (`0 / 0` and
`Infinity / Infinity`). -/
def Magnitude.div : Magnitude → Magnitude → Option Magnitude
  | .inf, .inf => none
  | .inf, .fin _ => some .inf
  | .fin _, .inf => some (.fin 0)
  | .fin a, .fin b =>
    if b = 0 then (if a = 0 then none else some .inf)
    else some (roundMagnitude (exactQuotient a b))

/-- Division `a / b`: the sign is negative when exactly one operand is. -/
def JsNum.div : JsNum → JsNum → JsNum
  | .val s a, .val t b =>
    match a.div b with
    | some m => .val (s != t) m
    | none => .nan
  | _, _ => .nan

/-- The least integer not below a non-negative rational. -/
def ceilNat (q : ℚ) : ℤ := if q.den = 1 then q.num else q.num / q.den + 1

/-- The function `Math.floor`: on a negative number the magnitude goes up. -/
def JsNum.floor : JsNum → JsNum
  | .val false (.fin q) => .val false (.fin (⌊q⌋ : ℤ))
  | .val true (.fin q) => .val true (.fin (ceilNat q : ℤ))
  | n => n

/-- Strict order of magnitudes. -/
def Magnitude.lt : Magnitude → Magnitude → Bool
  | .fin a, .fin b => decide (a < b)
  | .fin _, .inf => true
  | .inf, _ => false

/-- Strict order of two numbers other than `NaN`, with `-0` below `+0`. -/
def JsNum.lt : JsNum → JsNum → Bool
  | .val true _, .val false _ => true
  | .val false _, .val true _ => false
  | .val false a, .val false b => a.lt b
  | .val true a, .val true b => b.lt a
  | _, _ => false

/-- The function `Math.max` of two numbers: `NaN` if either is `NaN`. -/
def JsNum.max : JsNum → JsNum → JsNum
  | .nan, _ => .nan
  | _, .nan => .nan
  | a, b => if a.lt b then b else a

/-! ## Effects: events, collaborators, computations -/

/-- Logger level. -/
inductive LogLevel where
  | info
  | warn
  | error
deriving DecidableEq

/-- The object literal `orderparams`.  The seven entries the source writes as
string literals are strings; the others hold whatever value the source puts
there. -/
structure OrderParams where
  variety : String
  tradingsymbol : JsVal
  symboltoken : JsVal
  transactiontype : JsVal
  exchange : String
  ordertype : String
  producttype : JsVal
  duration : String
  price : String
  squareoff : String
  stoploss : String
  quantity : JsNum

/-- An observable step: a call to a collaborator, or a log line.  A log line
keeps its level, its fixed text and the values logged or interpolated. -/
inductive Event where
  | totpNow (seed : JsVal)
  | generateSession (apiKey username password totp : JsVal)
  | fetch (url : String)
  | placeOrder (apiKey : JsVal) (params : OrderParams)
  | log (level : LogLevel) (message : String) (args : List JsVal)

/-- Outcome of `await fetch(url)`: the call rejects, or it yields a response
with its `ok` flag and the outcome of `response.json()`. -/
inductive FetchOutcome where
  | failed (error : JsVal)
  | response (ok : Bool) (json : Except JsVal JsVal)

/-- Outcomes of the collaborators for one request. -/
structure World where
  totpNow : JsVal → Except JsVal JsVal
  generateSession : JsVal → JsVal → JsVal → JsVal → Except JsVal JsVal
  fetch : String → FetchOutcome
  placeOrderFullResponse : JsVal → OrderParams → Except JsVal JsVal
  jsonParse : String → Except JsVal JsVal
  toUpperCase : String → String
  receivedTimeIST : JsVal

/-- Section `SmartAPI` of the configuration. -/
structure SmartAPIConfig where
  api_key : JsVal
  username : JsVal
  password : JsVal
  demo_token : JsVal

/-- Section `OrderDetails` of the configuration. -/
structure OrderDetailsConfig where
  available_funds : JsVal
  transaction_type : JsVal
  product_type : JsVal

/-- The module-level `credentials` object. -/
structure Credentials where
  SmartAPI : SmartAPIConfig
  OrderDetails : OrderDetailsConfig

/-- A computation: the events emitted, in order, and the value returned or the
value thrown. -/
structure Run (α : Type) where
  trace : List Event
  result : Except JsVal α

/-- Return a value. -/
def Run.pure {α : Type} (a : α) : Run α := ⟨[], .ok a⟩

/-- Throw a value. -/
def Run.throw {α : Type} (e : JsVal) : Run α := ⟨[], .error e⟩

/-- A pure step that may throw. -/
def Run.lift {α : Type} (x : Except JsVal α) : Run α := ⟨[], x⟩

/-- A collaborator call: one event, then the collaborator's outcome. -/
def Run.call {α : Type} (ev : Event) (outcome : Except JsVal α) : Run α := ⟨[ev], outcome⟩

/-- Sequencing: a throw in the first part skips the second. -/
def Run.bind {α β : Type} (m : Run α) (f : α → Run β) : Run β :=
  match m.result with
  | .error e => ⟨m.trace, .error e⟩
  | .ok a => ⟨m.trace ++ (f a).trace, (f a).result⟩

/-- The statement `try { m } catch (e) { h e }`. -/
def Run.tryCatch {α : Type} (m : Run α) (h : JsVal → Run α) : Run α :=
  match m.result with
  | .ok _ => m
  | .error e => ⟨m.trace ++ (h e).trace, (h e).result⟩

instance : Monad Run where
  pure := Run.pure
  bind := Run.bind

/-- A call `logger.info(...)`, `logger.warn(...)` or `logger.error(...)`. -/
def logger (level : LogLevel) (message : String) (args : List JsVal) : Run Unit :=
  Run.call (.log level message args) (.ok ())

/-! ## The module -/

/-- The constant `jsonUrl`. -/
def jsonUrl : String :=
  "https://margincalculator.angelbroking.com/OpenAPI_File/files/OpenAPIScripMaster.json"

/-- The call `await fetch(url)` as an outcome: the response, or the rejection. -/
def awaitFetch (w : World) (url : String) : Except JsVal (Bool × Except JsVal JsVal) :=
  match w.fetch url with
  | .failed e => .error e
  | .response ok json => .ok (ok, json)

/-- Function `fetchJsonData`. -/
def fetchJsonData (w : World) (url : String) : Run JsVal :=
  Run.tryCatch
    (do
      let response ← Run.call (.fetch url) (awaitFetch w url)
      if response.1 then
        Run.lift response.2
      else do
        logger .error "Failed to fetch JSON data" []
        pure .null)
    (fun error => do
      logger .error "Error fetching JSON data: " [error]
      pure .null)

/-- The callback scan of `jsonData.find(item => item.name.toUpperCase() ===
stockSymbol.toUpperCase())` over the items of an array: the first item for
which the test holds, `undefined` when there is none; a throw in the callback
ends the scan. -/
def findRecord (upper : String → String) (stockSymbol : JsVal) :
    List JsVal → Except JsVal JsVal
  | [] => .ok .undefined
  | item :: rest => do
    let name ← getProp item "name"
    let lhs ← callToUpperCase upper name
    let rhs ← callToUpperCase upper stockSymbol
    if lhs = rhs then .ok item else findRecord upper stockSymbol rest

/-- The method call `jsonData.find(...)`: defined on arrays, a `TypeError` on
any other (truthy) value. -/
def callFind (upper : String → String) (jsonData stockSymbol : JsVal) :
    Except JsVal JsVal :=
  match jsonData with
  | .arr items => findRecord upper stockSymbol items
  | .undefined => .error (typeError "Cannot read properties of undefined")
  | .null => .error (typeError "Cannot read properties of null")
  | _ => .error (typeError "jsonData.find is not a function")

/-- Function `fetchSymbolToken`. -/
def fetchSymbolToken (w : World) (stockSymbol : JsVal) : Run JsVal := do
  let jsonData ← fetchJsonData w jsonUrl
  if !truthy jsonData then do
    logger .error "Failed to fetch JSON data." []
    pure .null
  else do
    let symbolData ← Run.lift (callFind w.toUpperCase jsonData stockSymbol)
    if truthy symbolData then do
      let tradingSymbol ← Run.lift (getProp symbolData "symbol")
      let symbolToken ← Run.lift (getProp symbolData "token")
      pure (.obj [("tradingSymbol", tradingSymbol), ("symbolToken", symbolToken)])
    else do
      logger .warn "Symbol token not found for the stock symbol." []
      pure .null

/-- Function `calculateQuantity`. -/
def calculateQuantity (credentials : Credentials) (price : JsVal) : JsNum :=
  let availableFunds :=
    (parseFloat credentials.OrderDetails.available_funds).orElse (.ofNat 0)
  let quantity := JsNum.max (JsNum.floor (availableFunds.div (parseFloat price))) (.ofNat 1)
  quantity

/-- The destructuring `const { tradingSymbol, symbolToken } = v`: a `TypeError`
on `undefined` and `null`, otherwise the two properties. -/
def destructureInstrument (v : JsVal) : Except JsVal (JsVal × JsVal) :=
  match v with
  | .undefined => .error (typeError "Cannot destructure property of undefined")
  | .null => .error (typeError "Cannot destructure property of null")
  | .obj fields =>
    .ok ((fields.lookup "tradingSymbol").getD .undefined,
      (fields.lookup "symbolToken").getD .undefined)
  | _ => .ok (.undefined, .undefined)

/-- The test `data.status === false`. -/
def isStrictlyFalse (v : JsVal) : Bool :=
  match v with
  | .bool false => true
  | _ => false

/-- The statement `if (typeof response === "string") { response =
JSON.parse(response); }` on the `const` binding `response`: for a string the
right-hand side is evaluated, then the assignment to the constant throws a
`TypeError`; any other value is left as it is. -/
def normalizeResponse (w : World) (response : JsVal) : Run JsVal :=
  match response with
  | .str text => do
    let _ ← Run.lift (w.jsonParse text)
    Run.throw (typeError "Assignment to constant variable.")
  | r => pure r

/-- Function `processStockOrder`. -/
def processStockOrder (w : World) (credentials : Credentials) (stockName price : JsVal) :
    Run Unit :=
  let apiKey := credentials.SmartAPI.api_key
  let username := credentials.SmartAPI.username
  let password := credentials.SmartAPI.password
  let demoToken := credentials.SmartAPI.demo_token
  Run.tryCatch
    (do
      let totp ← Run.call (.totpNow demoToken) (w.totpNow demoToken)
      let data ← Run.call (.generateSession apiKey username password totp)
        (w.generateSession apiKey username password totp)
      let status ← Run.lift (getProp data "status")
      if isStrictlyFalse status then
        logger .error "" [data]
      else do
        let sessionData ← Run.lift (getProp data "data")
        let _authToken ← Run.lift (getProp sessionData "jwtToken")
        let _refreshToken ← Run.lift (getProp sessionData "refreshToken")
        let stockSymbol ← Run.lift (callSplitFirst stockName)
        let instrument ← fetchSymbolToken w (.str stockSymbol)
        let (tradingSymbol, symbolToken) ← Run.lift (destructureInstrument instrument)
        if !truthy symbolToken then
          logger .error "Symbol Token not found for the stock symbol." []
        else do
          let quantity := calculateQuantity credentials price
          logger .info "Placing order for (quantity) shares of (stockName)..."
            [.num quantity, stockName]
          let orderparams : OrderParams :=
            { variety := "NORMAL"
              tradingsymbol := tradingSymbol
              symboltoken := symbolToken
              transactiontype := credentials.OrderDetails.transaction_type
              exchange := "NSE"
              ordertype := "MARKET"
              producttype := credentials.OrderDetails.product_type
              duration := "DAY"
              price := "0"
              squareoff := "0"
              stoploss := "0"
              quantity := quantity }
          let delivered ← Run.call (.placeOrder apiKey orderparams)
            (w.placeOrderFullResponse apiKey orderparams)
          let response ← normalizeResponse w delivered
          let responseData ← Run.lift (getProp response "data")
          let orderTime ← Run.lift (getProp responseData "orderCreationTime")
          if truthy orderTime then
            logger .info "Order placed successfully at: " [orderTime]
          else
            logger .info "Order placement failed." [])
    (fun error => logger .error "Order placement failed: " [error])

/-- The parts of the request the handler reads. -/
structure Request where
  method : String
  body : JsVal

/-- Body written to the response: by `res.json(v)` or by `res.end(text)`. -/
inductive ResponseBody where
  | json (v : JsVal)
  | text (s : String)

/-- The response written by the handler: status code, headers set, body. -/
structure Response where
  status : ℕ
  headers : List (String × List String)
  body : ResponseBody

/-- The exported `handler`.  The result is the response written; a thrown
value means the handler rejected before writing one. -/
def handler (w : World) (credentials : Credentials) (req : Request) : Run Response :=
  if req.method = "POST" then do
    logger .info "Received webhook at (IST):" [w.receivedTimeIST]
    let alertData := req.body
    logger .info "Received alert:" [alertData]
    let stockName ← Run.lift (getProp alertData "stockName")
    let price ← Run.lift (getProp alertData "price")
    if truthy stockName && truthy price then
      processStockOrder w credentials stockName price
    else
      pure ()
    pure
      { status := 200
        headers := []
        body := .json (.obj [("message", .str "Alert received successfully")]) }
  else
    pure
      { status := 405
        headers := [("Allow", ["POST"])]
        body := .text "Method Not Allowed" }

/-! ## Auxiliary definitions used in the statements -/

/-- Events of a finished prefix put in front of a computation. -/
def Run.prepend {α : Type} (evs : List Event) (r : Run α) : Run α :=
  ⟨evs ++ r.trace, r.result⟩

/-- Every event of the computation satisfies `P`. -/
def Run.All {α : Type} (P : Event → Prop) (m : Run α) : Prop :=
  ∀ ev ∈ m.trace, P ev

/-- The trace of the computation begins with the events `evs`. -/
def Run.StartsWith {α : Type} (evs : List Event) (m : Run α) : Prop :=
  ∃ rest, m.trace = evs ++ rest

/-- The event is a call to a collaborator of the pipeline (not a log line). -/
def Event.isCall : Event → Bool
  | .log _ _ _ => false
  | _ => true

/-- The event is an order submission. -/
def Event.isPlaceOrder : Event → Bool
  | .placeOrder _ _ => true
  | _ => false

/-- The event is a fetch of the instrument master. -/
def Event.isFetch : Event → Bool
  | .fetch _ => true
  | _ => false

/-- The response `res.status(200).json({ message: 'Alert received successfully' })`. -/
def ackResponse : Response :=
  { status := 200
    headers := []
    body := .json (.obj [("message", .str "Alert received successfully")]) }

/-- An alert body lacks field `k`: the key is absent, or bound to `null` or to
the empty string. -/
def lacks (fields : List (String × JsVal)) (k : String) : Prop :=
  fields.lookup k = none ∨ fields.lookup k = some .null ∨ fields.lookup k = some (.str "")

/-- A record of the instrument master as the interface describes it: an object
whose `name` is a string. -/
def WellFormedRecord (item : JsVal) : Prop :=
  ∃ fields name, item = .obj fields ∧ fields.lookup "name" = some (.str name)

/-- The record's name equals the input once both are upper-cased. -/
def nameMatches (upper : String → String) (stockSymbol : String) (item : JsVal) : Bool :=
  match item with
  | .obj fields =>
    match fields.lookup "name" with
    | some (.str name) => upper name == upper stockSymbol
    | _ => false
  | _ => false

/-- Trading symbol and token of a record, as an instrument. -/
def instrumentOf (record : JsVal) : JsVal :=
  match record with
  | .obj fields =>
    .obj [("tradingSymbol", (fields.lookup "symbol").getD .undefined),
      ("symbolToken", (fields.lookup "token").getD .undefined)]
  | _ => .null

/-- The resolver as the specification words it: the instrument of the first
record, in list order, whose name equals the input once both are upper-cased;
`null` when no record does. -/
def resolveSpec (upper : String → String) (items : List JsVal) (stockSymbol : String) :
    JsVal :=
  match items.find? (nameMatches upper stockSymbol) with
  | some record => instrumentOf record
  | none => .null

/-- The order request for a resolved instrument and a quantity, under a
configuration. -/
def expectedOrder (credentials : Credentials) (tradingSymbol symbolToken : JsVal)
    (quantity : JsNum) : OrderParams :=
  { variety := "NORMAL"
    tradingsymbol := tradingSymbol
    symboltoken := symbolToken
    transactiontype := credentials.OrderDetails.transaction_type
    exchange := "NSE"
    ordertype := "MARKET"
    producttype := credentials.OrderDetails.product_type
    duration := "DAY"
    price := "0"
    squareoff := "0"
    stoploss := "0"
    quantity := quantity }

/-- Authentication succeeds: the one-time code is generated, `generateSession`
returns `data`, `data.status` is a value other than `false`, and `data.data` is
present. -/
structure AuthSucceeds (w : World) (credentials : Credentials)
    (totp data status sessionData : JsVal) : Prop where
  totp_ok : w.totpNow credentials.SmartAPI.demo_token = .ok totp
  session_ok : w.generateSession credentials.SmartAPI.api_key credentials.SmartAPI.username
    credentials.SmartAPI.password totp = .ok data
  status_ok : getProp data "status" = .ok status
  status_not_false : status ≠ .bool false
  data_ok : getProp data "data" = .ok sessionData
  data_defined : sessionData ≠ .undefined
  data_not_null : sessionData ≠ .null

/-- The two collaborator calls of a successful authentication. -/
def authEvents (credentials : Credentials) (totp : JsVal) : List Event :=
  [.totpNow credentials.SmartAPI.demo_token,
    .generateSession credentials.SmartAPI.api_key credentials.SmartAPI.username
      credentials.SmartAPI.password totp]

/-- The log line written before an order is submitted. -/
def placingLog (stockName : JsVal) (quantity : JsNum) : Event :=
  .log .info "Placing order for (quantity) shares of (stockName)..." [.num quantity, stockName]

/-- The log line of the catch block of `processStockOrder`. -/
def failureLog (error : JsVal) : Event :=
  .log .error "Order placement failed: " [error]

/-- The log line reporting an accepted order. -/
def successLog (orderTime : JsVal) : Event :=
  .log .info "Order placed successfully at: " [orderTime]

/-- The two log lines the handler writes on receipt of a POST request. -/
def receiptLogs (w : World) (body : JsVal) : List Event :=
  [.log .info "Received webhook at (IST):" [w.receivedTimeIST],
    .log .info "Received alert:" [body]]

/-! ## Example inputs -/

/-- A session result of a successful authentication. -/
def sessionResult : JsVal :=
  .obj [("status", .bool true),
    ("data", .obj [("jwtToken", .str "jwt"), ("refreshToken", .str "refresh")])]

/-- A record of the instrument master. -/
def relianceRecord : JsVal :=
  .obj [("name", .str "RELIANCE"), ("symbol", .str "RELIANCE-EQ"), ("token", .str "2885")]

/-- A second record of the instrument master. -/
def infyRecord : JsVal :=
  .obj [("name", .str "INFY"), ("symbol", .str "INFY-EQ"), ("token", .str "1594")]

/-- A record whose name matches `RELIANCE` and whose token is the empty
string. -/
def emptyTokenRecord : JsVal :=
  .obj [("name", .str "RELIANCE"), ("symbol", .str "RELIANCE-EQ"), ("token", .str "")]

/-- A broker response carrying `data.orderCreationTime`, as a native
structure. -/
def acceptedResponse : JsVal :=
  .obj [("status", .bool true),
    ("data", .obj [("orderid", .str "201020000000080"),
      ("orderCreationTime", .str "04-Nov-2026 09:15:00")])]

/-- The same broker response, JSON-encoded. -/
def acceptedResponseText : String :=
  "\x7b\"status\":true,\"data\":\x7b\"orderid\":\"201020000000080\"," ++
    "\"orderCreationTime\":\"04-Nov-2026 09:15:00\"\x7d\x7d"

/-- A configuration with available funds `100000`. -/
def exampleCredentials : Credentials :=
  { SmartAPI :=
      { api_key := .str "key", username := .str "user", password := .str "pass",
        demo_token := .str "seed" }
    OrderDetails :=
      { available_funds := .str "100000", transaction_type := .str "BUY",
        product_type := .str "INTRADAY" } }

/-- Upper-casing of the example runtime on one character: the ASCII letters. -/
def upperChar (c : Char) : Char :=
  if 97 ≤ c.toNat ∧ c.toNat ≤ 122 then Char.ofNat (c.toNat - 32) else c

/-- Upper-casing of the example runtime.  The examples use ASCII strings only,
on which this is `String.prototype.toUpperCase`. -/
def asciiUpperCase (s : String) : String := String.mk (s.data.map upperChar)

/-- A configuration with available funds `100`. -/
def smallFundsCredentials : Credentials :=
  { exampleCredentials with
    OrderDetails :=
      { available_funds := .str "100", transaction_type := .str "BUY",
        product_type := .str "INTRADAY" } }

/-- A configuration with available funds `99999.90`. -/
def fractionalFundsCredentials : Credentials :=
  { exampleCredentials with
    OrderDetails :=
      { available_funds := .str "99999.90", transaction_type := .str "BUY",
        product_type := .str "INTRADAY" } }

/-- A configuration with available funds `1e308`. -/
def hugeFundsCredentials : Credentials :=
  { exampleCredentials with
    OrderDetails :=
      { available_funds := .str "1e308", transaction_type := .str "BUY",
        product_type := .str "INTRADAY" } }

/-- A world in which authentication succeeds, the instrument master fetch has
the given outcome and the order submission delivers the given value.
`JSON.parse` decodes `acceptedResponseText` and rejects any other text. -/
def exampleWorld (master : FetchOutcome) (delivered : JsVal) : World :=
  { totpNow := fun _ => .ok (.str "123456")
    generateSession := fun _ _ _ _ => .ok sessionResult
    fetch := fun _ => master
    placeOrderFullResponse := fun _ _ => .ok delivered
    jsonParse := fun text =>
      if text = acceptedResponseText then .ok acceptedResponse
      else .error (.str "SyntaxError")
    toUpperCase := asciiUpperCase
    receivedTimeIST := .str "4/11/2026, 9:15:00 am" }

/-- A record whose name has a letter outside ASCII. -/
def cafeRecord : JsVal :=
  .obj [("name", .str "CAFÉ"), ("symbol", .str "CAFE-EQ"), ("token", .str "77")]

/-- Upper-casing of a runtime on the strings of the next example: `café` goes
to `CAFÉ`. -/
def cafeUpperCase (s : String) : String :=
  if s = "café" then "CAFÉ" else asciiUpperCase s

/-- A world whose instrument master holds `cafeRecord`. -/
def cafeWorld : World :=
  { exampleWorld (.response true (.ok (.arr [cafeRecord]))) acceptedResponse with
    toUpperCase := cafeUpperCase }

/-- A world in which `generateSession` has the given outcome. -/
def sessionWorld (session : Except JsVal JsVal) : World :=
  { exampleWorld (.response true (.ok (.arr [relianceRecord, infyRecord]))) acceptedResponse with
    generateSession := fun _ _ _ _ => session }

/-- The fields of the alert `{ stockName: "RELIANCE-EQ", price: 2500 }`. -/
def exampleAlert : List (String × JsVal) :=
  [("stockName", .str "RELIANCE-EQ"), ("price", .num (.ofNat 2500))]

/-! ## Basic facts about computations -/

@[simp] theorem Run.bind_eq {α β : Type} (m : Run α) (f : α → Run β) :
    (m >>= f) = Run.bind m f := rfl

@[simp] theorem Run.pure_eq {α : Type} (a : α) : (Pure.pure a : Run α) = Run.pure a := rfl

@[simp] theorem Run.prepend_mk {α : Type} (evs t : List Event) (r : Except JsVal α) :
    Run.prepend evs ⟨t, r⟩ = ⟨evs ++ t, r⟩ := rfl

@[simp] theorem Run.bind_mk_ok {α β : Type} (t : List Event) (a : α) (f : α → Run β) :
    Run.bind ⟨t, .ok a⟩ f = Run.prepend t (f a) := rfl

@[simp] theorem Run.bind_mk_error {α β : Type} (t : List Event) (e : JsVal) (f : α → Run β) :
    Run.bind ⟨t, .error e⟩ f = ⟨t, .error e⟩ := rfl

@[simp] theorem Run.tryCatch_mk_ok {α : Type} (t : List Event) (a : α) (h : JsVal → Run α) :
    Run.tryCatch ⟨t, .ok a⟩ h = ⟨t, .ok a⟩ := rfl

@[simp] theorem Run.tryCatch_mk_error {α : Type} (t : List Event) (e : JsVal)
    (h : JsVal → Run α) : Run.tryCatch ⟨t, .error e⟩ h = Run.prepend t (h e) := rfl

@[simp] theorem Run.prepend_trace {α : Type} (evs : List Event) (r : Run α) :
    (Run.prepend evs r).trace = evs ++ r.trace := rfl

@[simp] theorem Run.prepend_result {α : Type} (evs : List Event) (r : Run α) :
    (Run.prepend evs r).result = r.result := rfl

theorem Run.eq_mk_of_result {α : Type} (m : Run α) (a : α) (h : m.result = .ok a) :
    m = ⟨m.trace, .ok a⟩ := by
  obtain ⟨t, r⟩ := m
  simp at h
  simp [h]

theorem Run.bind_of_result {α β : Type} (m : Run α) (a : α) (f : α → Run β)
    (h : m.result = .ok a) : Run.bind m f = Run.prepend m.trace (f a) := by
  rw [Run.eq_mk_of_result m a h]
  rfl

/-! ### Properties of every event of a computation -/

theorem Run.all_pure {α : Type} (P : Event → Prop) (a : α) :
    Run.All P (Run.pure a) ↔ True := by
  simp [Run.All, Run.pure]

theorem Run.all_throw {α : Type} (P : Event → Prop) (e : JsVal) :
    Run.All P (Run.throw e : Run α) ↔ True := by
  simp [Run.All, Run.throw]

theorem Run.all_lift {α : Type} (P : Event → Prop) (x : Except JsVal α) :
    Run.All P (Run.lift x) ↔ True := by
  simp [Run.All, Run.lift]

theorem Run.all_call {α : Type} (P : Event → Prop) (ev : Event) (out : Except JsVal α) :
    Run.All P (Run.call ev out) ↔ P ev := by
  simp [Run.All, Run.call]

theorem Run.all_logger (P : Event → Prop) (level : LogLevel) (message : String)
    (args : List JsVal) :
    Run.All P (logger level message args) ↔ P (.log level message args) :=
  Run.all_call P _ _

theorem Run.all_bind {α β : Type} (P : Event → Prop) (m : Run α) (f : α → Run β) :
    Run.All P (Run.bind m f) ↔ Run.All P m ∧ ∀ a, m.result = .ok a → Run.All P (f a) := by
  obtain ⟨t, r⟩ := m
  cases r with
  | error e => simp [Run.All]
  | ok a =>
    simp only [Run.All, Run.bind_mk_ok, Run.prepend_trace, List.mem_append]
    constructor
    · intro h
      refine ⟨fun ev hev => h ev (Or.inl hev), ?_⟩
      intro b hb ev hev
      cases hb
      exact h ev (Or.inr hev)
    · rintro ⟨h1, h2⟩ ev (hev | hev)
      · exact h1 ev hev
      · exact h2 a rfl ev hev

theorem Run.all_tryCatch {α : Type} (P : Event → Prop) (m : Run α) (h : JsVal → Run α) :
    Run.All P (Run.tryCatch m h) ↔
      Run.All P m ∧ ∀ e, m.result = .error e → Run.All P (h e) := by
  obtain ⟨t, r⟩ := m
  cases r with
  | ok a => simp [Run.All]
  | error e =>
    simp only [Run.All, Run.tryCatch_mk_error, Run.prepend_trace, List.mem_append]
    constructor
    · intro h1
      refine ⟨fun ev hev => h1 ev (Or.inl hev), ?_⟩
      intro b hb ev hev
      cases hb
      exact h1 ev (Or.inr hev)
    · rintro ⟨h1, h2⟩ ev (hev | hev)
      · exact h1 ev hev
      · exact h2 e rfl ev hev

theorem Run.all_ite {α : Type} (P : Event → Prop) (c : Prop) [Decidable c] (a b : Run α) :
    Run.All P (if c then a else b) ↔ (c → Run.All P a) ∧ (¬c → Run.All P b) := by
  split <;> simp [*]

/-! ### Values -/

@[simp] theorem getProp_obj (fields : List (String × JsVal)) (k : String) :
    getProp (.obj fields) k = .ok ((fields.lookup k).getD .undefined) := rfl

@[simp] theorem getProp_null (k : String) :
    getProp .null k = .error (typeError "Cannot read properties of null") := rfl

@[simp] theorem getProp_undefined (k : String) :
    getProp .undefined k = .error (typeError "Cannot read properties of undefined") := rfl

theorem getProp_ok (v : JsVal) (k : String) (h1 : v ≠ .undefined) (h2 : v ≠ .null) :
    ∃ x, getProp v k = .ok x := by
  cases v with
  | undefined => exact absurd rfl h1
  | null => exact absurd rfl h2
  | bool b => exact ⟨_, rfl⟩
  | num n => exact ⟨_, rfl⟩
  | str s => exact ⟨_, rfl⟩
  | arr items => exact ⟨_, rfl⟩
  | obj fields => exact ⟨_, rfl⟩

@[simp] theorem truthy_undefined : truthy .undefined = false := rfl

@[simp] theorem truthy_null : truthy .null = false := rfl

@[simp] theorem truthy_empty : truthy (.str "") = false := rfl

@[simp] theorem truthy_obj (fields : List (String × JsVal)) : truthy (.obj fields) = true := rfl

@[simp] theorem truthy_arr (items : List JsVal) : truthy (.arr items) = true := rfl

theorem truthy_str (s : String) (h : s ≠ "") : truthy (.str s) = true := by
  simp [truthy, h]

theorem isStrictlyFalse_eq_false (v : JsVal) (h : v ≠ .bool false) :
    isStrictlyFalse v = false := by
  cases v with
  | bool b =>
    cases b with
    | false => exact absurd rfl h
    | true => rfl
  | _ => rfl

@[simp] theorem isStrictlyFalse_false : isStrictlyFalse (.bool false) = true := rfl

/-! ### Instrument resolution -/

theorem findRecord_congr (upper : String → String) (a b : JsVal)
    (h : callToUpperCase upper a = callToUpperCase upper b)
    (items : List JsVal) : findRecord upper a items = findRecord upper b items := by
  induction items with
  | nil => rfl
  | cons item rest ih => simp only [findRecord, h, ih]

theorem callFind_congr (upper : String → String) (a b : JsVal)
    (h : callToUpperCase upper a = callToUpperCase upper b)
    (jsonData : JsVal) : callFind upper jsonData a = callFind upper jsonData b := by
  cases jsonData with
  | arr items => exact findRecord_congr upper a b h items
  | _ => rfl

theorem fetchSymbolToken_congr (w : World) (a b : JsVal)
    (h : callToUpperCase w.toUpperCase a = callToUpperCase w.toUpperCase b) :
    fetchSymbolToken w a = fetchSymbolToken w b := by
  simp only [fetchSymbolToken, callFind_congr w.toUpperCase a b h]

theorem findRecord_eq_find (upper : String → String) (stockSymbol : String)
    (items : List JsVal) (h : ∀ item ∈ items, WellFormedRecord item) :
    findRecord upper (.str stockSymbol) items =
      .ok ((items.find? (nameMatches upper stockSymbol)).getD .undefined) := by
  induction items with
  | nil => rfl
  | cons item rest ih =>
    obtain ⟨fields, name, hitem, hname⟩ := h item (List.mem_cons_self _ _)
    have ih2 := ih (fun x hx => h x (List.mem_cons_of_mem _ hx))
    subst hitem
    by_cases hm : upper name = upper stockSymbol
    · simp [findRecord, hname, callToUpperCase, nameMatches, hm, bind, Except.bind]
    · simp [findRecord, hname, callToUpperCase, nameMatches, hm, bind, Except.bind, ih2]

theorem find_nameMatches_obj (upper : String → String) (stockSymbol : String)
    (items : List JsVal) (record : JsVal)
    (h : items.find? (nameMatches upper stockSymbol) = some record) :
    ∃ fields, record = .obj fields := by
  have hm := List.find?_some h
  cases record with
  | obj fields => exact ⟨fields, rfl⟩
  | _ => simp [nameMatches] at hm

theorem fetchSymbolToken_fetch_failed (w : World) (stockSymbol e : JsVal)
    (h : w.fetch jsonUrl = .failed e) :
    fetchSymbolToken w stockSymbol =
      ⟨[.fetch jsonUrl, .log .error "Error fetching JSON data: " [e],
        .log .error "Failed to fetch JSON data." []], .ok .null⟩ := by
  simp [fetchSymbolToken, fetchJsonData, awaitFetch, h, Run.call, logger, Run.pure]

theorem fetchSymbolToken_not_ok (w : World) (stockSymbol : JsVal) (json : Except JsVal JsVal)
    (h : w.fetch jsonUrl = .response false json) :
    fetchSymbolToken w stockSymbol =
      ⟨[.fetch jsonUrl, .log .error "Failed to fetch JSON data" [],
        .log .error "Failed to fetch JSON data." []], .ok .null⟩ := by
  simp [fetchSymbolToken, fetchJsonData, awaitFetch, h, Run.call, logger, Run.pure]

theorem fetchSymbolToken_of_master (w : World) (stockSymbol : String) (items : List JsVal)
    (h : w.fetch jsonUrl = .response true (.ok (.arr items)))
    (hw : ∀ item ∈ items, WellFormedRecord item) :
    fetchSymbolToken w (.str stockSymbol) =
      match items.find? (nameMatches w.toUpperCase stockSymbol) with
      | some record => ⟨[.fetch jsonUrl], .ok (instrumentOf record)⟩
      | none => ⟨[.fetch jsonUrl, .log .warn "Symbol token not found for the stock symbol." []],
          .ok .null⟩ := by
  have hf := findRecord_eq_find w.toUpperCase stockSymbol items hw
  cases hfind : items.find? (nameMatches w.toUpperCase stockSymbol) with
  | none =>
    rw [hfind] at hf
    simp [fetchSymbolToken, fetchJsonData, awaitFetch, h, Run.call, logger, Run.pure,
      Run.lift, callFind, hf]
  | some record =>
    rw [hfind] at hf
    obtain ⟨fields, rfl⟩ := find_nameMatches_obj w.toUpperCase stockSymbol items record hfind
    simp [fetchSymbolToken, fetchJsonData, awaitFetch, h, Run.call, logger, Run.pure,
      Run.lift, callFind, hf, instrumentOf]

/-- The `try`/`catch` of `processStockOrder` lets nothing escape: the catch
block only logs. -/
theorem Run.tryCatch_log_result (m : Run Unit) (level : LogLevel) (message : String) :
    (Run.tryCatch m (fun error => logger level message [error])).result = .ok () := by
  obtain ⟨t, r⟩ := m
  cases r with
  | error e => rfl
  | ok a => rfl

theorem processStockOrder_result (w : World) (credentials : Credentials)
    (stockName price : JsVal) :
    (processStockOrder w credentials stockName price).result = .ok () := by
  unfold processStockOrder
  exact Run.tryCatch_log_result _ _ _

/-! ### Paths through `processStockOrder` -/

theorem normalizeResponse_of_not_str (w : World) (response : JsVal)
    (h : ∀ text, response ≠ .str text) : normalizeResponse w response = ⟨[], .ok response⟩ := by
  cases response with
  | str s => exact absurd rfl (h s)
  | _ => rfl

theorem processStockOrder_session_throws (w : World) (credentials : Credentials)
    (stockName price totp e : JsVal)
    (hTotp : w.totpNow credentials.SmartAPI.demo_token = .ok totp)
    (hSession : w.generateSession credentials.SmartAPI.api_key credentials.SmartAPI.username
      credentials.SmartAPI.password totp = .error e) :
    processStockOrder w credentials stockName price =
      ⟨authEvents credentials totp ++ [failureLog e], .ok ()⟩ := by
  simp [processStockOrder, Run.call, hTotp, hSession, logger, authEvents, failureLog]

theorem processStockOrder_session_rejected (w : World) (credentials : Credentials)
    (stockName price totp data : JsVal)
    (hTotp : w.totpNow credentials.SmartAPI.demo_token = .ok totp)
    (hSession : w.generateSession credentials.SmartAPI.api_key credentials.SmartAPI.username
      credentials.SmartAPI.password totp = .ok data)
    (hStatus : getProp data "status" = .ok (.bool false)) :
    processStockOrder w credentials stockName price =
      ⟨authEvents credentials totp ++ [.log .error "" [data]], .ok ()⟩ := by
  simp [processStockOrder, Run.call, Run.lift, hTotp, hSession, hStatus, logger, authEvents]

theorem processStockOrder_not_found (w : World) (credentials : Credentials)
    (s : String) (price totp data status sessionData : JsVal) (tf : List Event)
    (hAuth : AuthSucceeds w credentials totp data status sessionData)
    (hResolve : fetchSymbolToken w (.str (splitFirst s)) = ⟨tf, .ok .null⟩) :
    processStockOrder w credentials (.str s) price =
      ⟨authEvents credentials totp ++ tf ++
        [failureLog (typeError "Cannot destructure property of null")], .ok ()⟩ := by
  obtain ⟨jwt, hjwt⟩ := getProp_ok sessionData "jwtToken" hAuth.data_defined hAuth.data_not_null
  obtain ⟨rt, hrt⟩ := getProp_ok sessionData "refreshToken" hAuth.data_defined
    hAuth.data_not_null
  simp [processStockOrder, Run.call, Run.lift, hAuth.totp_ok, hAuth.session_ok,
    hAuth.status_ok, isStrictlyFalse_eq_false _ hAuth.status_not_false, hAuth.data_ok, hjwt,
    hrt, callSplitFirst, hResolve, destructureInstrument, logger, authEvents, failureLog]

theorem processStockOrder_falsy_token (w : World) (credentials : Credentials)
    (s : String) (price totp data status sessionData tradingSymbol symbolToken : JsVal)
    (tf : List Event)
    (hAuth : AuthSucceeds w credentials totp data status sessionData)
    (hResolve : fetchSymbolToken w (.str (splitFirst s)) =
      ⟨tf, .ok (.obj [("tradingSymbol", tradingSymbol), ("symbolToken", symbolToken)])⟩)
    (hToken : truthy symbolToken = false) :
    processStockOrder w credentials (.str s) price =
      ⟨authEvents credentials totp ++ tf ++
        [.log .error "Symbol Token not found for the stock symbol." []], .ok ()⟩ := by
  obtain ⟨jwt, hjwt⟩ := getProp_ok sessionData "jwtToken" hAuth.data_defined hAuth.data_not_null
  obtain ⟨rt, hrt⟩ := getProp_ok sessionData "refreshToken" hAuth.data_defined
    hAuth.data_not_null
  simp [processStockOrder, Run.call, Run.lift, hAuth.totp_ok, hAuth.session_ok,
    hAuth.status_ok, isStrictlyFalse_eq_false _ hAuth.status_not_false, hAuth.data_ok, hjwt,
    hrt, callSplitFirst, hResolve, destructureInstrument, logger, authEvents, List.lookup, hToken]

theorem processStockOrder_native_response (w : World) (credentials : Credentials)
    (s : String) (price totp data status sessionData tradingSymbol symbolToken : JsVal)
    (tf : List Event) (response responseData orderTime : JsVal)
    (hAuth : AuthSucceeds w credentials totp data status sessionData)
    (hResolve : fetchSymbolToken w (.str (splitFirst s)) =
      ⟨tf, .ok (.obj [("tradingSymbol", tradingSymbol), ("symbolToken", symbolToken)])⟩)
    (hToken : truthy symbolToken = true)
    (hPlace : w.placeOrderFullResponse credentials.SmartAPI.api_key
      (expectedOrder credentials tradingSymbol symbolToken (calculateQuantity credentials price))
      = .ok response)
    (hNative : ∀ text, response ≠ .str text)
    (hData : getProp response "data" = .ok responseData)
    (hTime : getProp responseData "orderCreationTime" = .ok orderTime) :
    processStockOrder w credentials (.str s) price =
      ⟨authEvents credentials totp ++ tf ++
        [placingLog (.str s) (calculateQuantity credentials price),
          .placeOrder credentials.SmartAPI.api_key (expectedOrder credentials tradingSymbol
            symbolToken (calculateQuantity credentials price)),
          if truthy orderTime then successLog orderTime
          else .log .info "Order placement failed." []], .ok ()⟩ := by
  obtain ⟨jwt, hjwt⟩ := getProp_ok sessionData "jwtToken" hAuth.data_defined hAuth.data_not_null
  obtain ⟨rt, hrt⟩ := getProp_ok sessionData "refreshToken" hAuth.data_defined
    hAuth.data_not_null
  unfold expectedOrder at hPlace
  by_cases hot : truthy orderTime = true
  · simp [processStockOrder, Run.call, Run.lift, hAuth.totp_ok, hAuth.session_ok,
      hAuth.status_ok, isStrictlyFalse_eq_false _ hAuth.status_not_false, hAuth.data_ok, hjwt,
      hrt, callSplitFirst, hResolve, destructureInstrument, logger, authEvents, List.lookup, hToken, hPlace,
      normalizeResponse_of_not_str w response hNative, hData, hTime, hot, placingLog,
      expectedOrder, successLog]
  · simp [processStockOrder, Run.call, Run.lift, hAuth.totp_ok, hAuth.session_ok,
      hAuth.status_ok, isStrictlyFalse_eq_false _ hAuth.status_not_false, hAuth.data_ok, hjwt,
      hrt, callSplitFirst, hResolve, destructureInstrument, logger, authEvents, List.lookup, hToken, hPlace,
      normalizeResponse_of_not_str w response hNative, hData, hTime, hot, placingLog,
      expectedOrder, successLog]

theorem processStockOrder_string_response (w : World) (credentials : Credentials)
    (s : String) (price totp data status sessionData tradingSymbol symbolToken : JsVal)
    (tf : List Event) (text : String)
    (hAuth : AuthSucceeds w credentials totp data status sessionData)
    (hResolve : fetchSymbolToken w (.str (splitFirst s)) =
      ⟨tf, .ok (.obj [("tradingSymbol", tradingSymbol), ("symbolToken", symbolToken)])⟩)
    (hToken : truthy symbolToken = true)
    (hPlace : w.placeOrderFullResponse credentials.SmartAPI.api_key
      (expectedOrder credentials tradingSymbol symbolToken (calculateQuantity credentials price))
      = .ok (.str text)) :
    processStockOrder w credentials (.str s) price =
      ⟨authEvents credentials totp ++ tf ++
        [placingLog (.str s) (calculateQuantity credentials price),
          .placeOrder credentials.SmartAPI.api_key (expectedOrder credentials tradingSymbol
            symbolToken (calculateQuantity credentials price)),
          failureLog (match w.jsonParse text with
            | .error e => e
            | .ok _ => typeError "Assignment to constant variable.")], .ok ()⟩ := by
  obtain ⟨jwt, hjwt⟩ := getProp_ok sessionData "jwtToken" hAuth.data_defined hAuth.data_not_null
  obtain ⟨rt, hrt⟩ := getProp_ok sessionData "refreshToken" hAuth.data_defined
    hAuth.data_not_null
  unfold expectedOrder at hPlace
  cases hparse : w.jsonParse text with
  | error e =>
    simp [processStockOrder, Run.call, Run.lift, hAuth.totp_ok, hAuth.session_ok,
      hAuth.status_ok, isStrictlyFalse_eq_false _ hAuth.status_not_false, hAuth.data_ok, hjwt,
      hrt, callSplitFirst, hResolve, destructureInstrument, logger, authEvents, List.lookup, hToken, hPlace,
      normalizeResponse, hparse, placingLog, expectedOrder, failureLog, Run.throw]
  | ok v =>
    simp [processStockOrder, Run.call, Run.lift, hAuth.totp_ok, hAuth.session_ok,
      hAuth.status_ok, isStrictlyFalse_eq_false _ hAuth.status_not_false, hAuth.data_ok, hjwt,
      hrt, callSplitFirst, hResolve, destructureInstrument, logger, authEvents, List.lookup, hToken, hPlace,
      normalizeResponse, hparse, placingLog, expectedOrder, failureLog, Run.throw]

/-! ### Properties of every event of the pipeline -/

theorem fetchSymbolToken_all (P : Event → Prop) (w : World) (stockSymbol : JsVal)
    (hFetch : ∀ url, P (.fetch url)) (hLog : ∀ level message args, P (.log level message args)) :
    Run.All P (fetchSymbolToken w stockSymbol) := by
  unfold fetchSymbolToken fetchJsonData
  simp only [Run.bind_eq, Run.pure_eq, Run.all_bind, Run.all_tryCatch, Run.all_ite,
    Run.all_lift, Run.all_pure, Run.all_logger, Run.all_call, hFetch, hLog]
  simp

theorem normalizeResponse_all (P : Event → Prop) (w : World) (response : JsVal) :
    Run.All P (normalizeResponse w response) := by
  cases response with
  | str s =>
    simp only [normalizeResponse, Run.bind_eq, Run.all_bind, Run.all_lift, Run.all_throw]
    simp
  | _ => exact (Run.all_pure P _).mpr trivial

theorem processStockOrder_all (P : Event → Prop) (w : World) (credentials : Credentials)
    (stockName price : JsVal)
    (hTotp : ∀ seed, P (.totpNow seed))
    (hSession : ∀ k u p t, P (.generateSession k u p t))
    (hFetch : ∀ url, P (.fetch url))
    (hLog : ∀ level message args, P (.log level message args))
    (hOrder : ∀ tradingSymbol symbolToken, P (.placeOrder credentials.SmartAPI.api_key
      (expectedOrder credentials tradingSymbol symbolToken
        (calculateQuantity credentials price)))) :
    Run.All P (processStockOrder w credentials stockName price) := by
  unfold processStockOrder
  unfold expectedOrder at hOrder
  simp only [Run.bind_eq, Run.pure_eq, Run.all_bind, Run.all_tryCatch, Run.all_ite,
    Run.all_lift, Run.all_pure, Run.all_logger, Run.all_call, hFetch, hLog, hTotp, hSession,
    hOrder, normalizeResponse_all P w, fetchSymbolToken_all P w _ hFetch hLog]
  simp

/-! ### The handler -/

theorem handler_post (w : World) (credentials : Credentials) (fields : List (String × JsVal)) :
    handler w credentials ⟨"POST", .obj fields⟩ =
      ⟨receiptLogs w (.obj fields) ++
        (if truthy ((fields.lookup "stockName").getD .undefined) &&
            truthy ((fields.lookup "price").getD .undefined) then
          (processStockOrder w credentials ((fields.lookup "stockName").getD .undefined)
            ((fields.lookup "price").getD .undefined)).trace
        else []), .ok ackResponse⟩ := by
  have hr := Run.bind_of_result
    (processStockOrder w credentials ((fields.lookup "stockName").getD .undefined)
      ((fields.lookup "price").getD .undefined)) ()
    (fun _ => (Run.pure ackResponse : Run Response)) (processStockOrder_result w credentials _ _)
  by_cases hc : (truthy ((fields.lookup "stockName").getD .undefined) &&
      truthy ((fields.lookup "price").getD .undefined)) = true
  · rw [if_pos hc]
    unfold ackResponse at hr
    simp only [handler, if_true, Run.bind_eq, Run.pure_eq, getProp_obj, logger, Run.call,
      Run.lift, Run.bind_mk_ok, if_pos hc, hr]
    simp [Run.pure, receiptLogs, ackResponse]
  · rw [if_neg hc]
    simp only [Bool.and_eq_true] at hc
    simp [handler, logger, Run.call, Run.lift, Run.pure, ackResponse, receiptLogs, hc]

/-! ## The claims -/

theorem truthy_of_lacks (fields : List (String × JsVal)) (k : String) (h : lacks fields k) :
    truthy ((fields.lookup k).getD .undefined) = false := by
  rcases h with h | h | h <;> simp [h]

/-- Claim C1.  For every POST request whose body is an object, whatever the
collaborators do (authentication rejected or throwing, fetch failing, no
matching instrument, submission throwing, response without a timestamp), the
handler returns normally with status 200 and the body
`{"message": "Alert received successfully"}`; `processStockOrder` itself never
throws. -/
theorem handler_post_always_acknowledges (w : World) (credentials : Credentials)
    (fields : List (String × JsVal)) :
    (handler w credentials ⟨"POST", .obj fields⟩).result =
        .ok ⟨200, [], .json (.obj [("message", .str "Alert received successfully")])⟩ ∧
      ∀ stockName price, (processStockOrder w credentials stockName price).result = .ok () := by
  refine ⟨?_, fun stockName price => processStockOrder_result w credentials stockName price⟩
  rw [handler_post]
  rfl

/-- Claim C9.  For every POST request whose alert body lacks `stockName` or
lacks `price` (absent, `null` or empty), the handler emits its two receipt log
lines and nothing else, so no pipeline stage is invoked (no one-time code, no
authentication, no instrument fetch, no order submission), and it responds 200
with the acknowledgement body. -/
theorem handler_drops_incomplete_alert (w : World) (credentials : Credentials)
    (fields : List (String × JsVal))
    (h : lacks fields "stockName" ∨ lacks fields "price") :
    handler w credentials ⟨"POST", .obj fields⟩ =
        ⟨receiptLogs w (.obj fields),
          .ok ⟨200, [], .json (.obj [("message", .str "Alert received successfully")])⟩⟩ ∧
      ∀ ev ∈ (handler w credentials ⟨"POST", .obj fields⟩).trace, ev.isCall = false := by
  have hc : (truthy ((fields.lookup "stockName").getD .undefined) &&
      truthy ((fields.lookup "price").getD .undefined)) = false := by
    rcases h with h | h
    · simp [truthy_of_lacks fields _ h]
    · simp [truthy_of_lacks fields _ h]
  have he : handler w credentials ⟨"POST", .obj fields⟩ =
      ⟨receiptLogs w (.obj fields), .ok ackResponse⟩ := by
    rw [handler_post, hc]
    simp
  refine ⟨he, ?_⟩
  rw [he]
  intro ev hev
  simp [receiptLogs] at hev
  rcases hev with rfl | rfl <;> rfl

/-- Witness for C9: an alert without `price`, and an alert whose `stockName` is
empty. -/
theorem handler_drops_incomplete_alert_witness :
    (handler (exampleWorld (.failed .null) .null) exampleCredentials
        ⟨"POST", .obj [("stockName", .str "RELIANCE-EQ")]⟩).trace =
      receiptLogs (exampleWorld (.failed .null) .null)
        (.obj [("stockName", .str "RELIANCE-EQ")]) ∧
    (handler (exampleWorld (.failed .null) .null) exampleCredentials
        ⟨"POST", .obj [("stockName", .str ""), ("price", .num (.ofNat 2500))]⟩).result =
      .ok ⟨200, [], .json (.obj [("message", .str "Alert received successfully")])⟩ :=
  ⟨congrArg Run.trace (handler_drops_incomplete_alert (exampleWorld (.failed .null) .null)
      exampleCredentials [("stockName", .str "RELIANCE-EQ")] (Or.inr (Or.inl rfl))).1,
    congrArg Run.result (handler_drops_incomplete_alert (exampleWorld (.failed .null) .null)
      exampleCredentials [("stockName", .str ""), ("price", .num (.ofNat 2500))]
      (Or.inl (Or.inr (Or.inr rfl)))).1⟩

/-- Claim C10.  For every request whose method is not POST, the handler
responds with status 405, the header `Allow: POST` and the body
`Method Not Allowed`, and emits no event at all: no pipeline stage is
invoked. -/
theorem handler_rejects_other_methods (w : World) (credentials : Credentials) (req : Request)
    (hMethod : req.method ≠ "POST") :
    handler w credentials req =
        ⟨[], .ok ⟨405, [("Allow", ["POST"])], .text "Method Not Allowed"⟩⟩ ∧
      ∀ ev ∈ (handler w credentials req).trace, ev.isCall = false := by
  have h : handler w credentials req =
      ⟨[], .ok ⟨405, [("Allow", ["POST"])], .text "Method Not Allowed"⟩⟩ := by
    simp [handler, hMethod, Run.pure]
  refine ⟨h, ?_⟩
  rw [h]
  intro ev hev
  cases hev

/-- Witness for C10: a GET request carrying a complete alert. -/
theorem handler_rejects_other_methods_witness :
    handler (exampleWorld (.failed .null) .null) exampleCredentials ⟨"GET", .obj exampleAlert⟩ =
      ⟨[], .ok ⟨405, [("Allow", ["POST"])], .text "Method Not Allowed"⟩⟩ :=
  (handler_rejects_other_methods (exampleWorld (.failed .null) .null) exampleCredentials
    ⟨"GET", .obj exampleAlert⟩ (by decide)).1

theorem exactQuotient_eq (a b : ℚ) : exactQuotient a b = a / b := by
  unfold exactQuotient
  rw [Rat.divInt_eq_div]
  push_cast
  by_cases hb : b = 0
  · subst hb
    simp
  · have hbn : (b.num : ℚ) ≠ 0 := by
      exact_mod_cast (Rat.num_ne_zero.mpr hb)
    have had : (a.den : ℚ) ≠ 0 := by
      exact_mod_cast a.den_nz
    have hbd : (b.den : ℚ) ≠ 0 := by
      exact_mod_cast b.den_nz
    conv_rhs => rw [← Rat.num_div_den a, ← Rat.num_div_den b]
    field_simp

theorem calculateQuantity_of_quotient (credentials : Credentials) (price : JsVal) (f p : ℚ)
    (hFunds : parseFloat credentials.OrderDetails.available_funds = .val false (.fin f))
    (hPrice : parseFloat price = .val false (.fin p)) (hPos : 0 < p) :
    JsNum.div (.val false (.fin f)) (.val false (.fin p)) =
        .val false (roundMagnitude (f / p)) ∧
      calculateQuantity credentials price =
        match roundMagnitude (f / p) with
        | .inf => .val false .inf
        | .fin r => .val false (.fin ((max ⌊r⌋ 1 : ℤ) : ℚ)) := by
  have hp : p ≠ 0 := ne_of_gt hPos
  have hor : (JsNum.val false (.fin f)).orElse (.ofNat 0) = .val false (.fin f) := by
    by_cases h0 : f = 0
    · simp [JsNum.orElse, JsNum.truthy, h0, JsNum.ofNat]
    · simp [JsNum.orElse, JsNum.truthy, h0]
  have hdiv : JsNum.div (.val false (.fin f)) (.val false (.fin p)) =
      .val false (roundMagnitude (f / p)) := by
    simp [JsNum.div, Magnitude.div, hp, exactQuotient_eq]
  refine ⟨hdiv, ?_⟩
  simp only [calculateQuantity, hFunds, hPrice, hor, hdiv]
  cases roundMagnitude (f / p) with
  | inf => simp [JsNum.floor, JsNum.max, JsNum.lt, Magnitude.lt, JsNum.ofNat]
  | fin r =>
    by_cases hlt : ⌊r⌋ < 1
    · have h1 : ((⌊r⌋ : ℤ) : ℚ) < 1 := by exact_mod_cast hlt
      simp [JsNum.floor, JsNum.max, JsNum.lt, Magnitude.lt, JsNum.ofNat, h1,
        max_eq_right (le_of_lt hlt)]
    · have h1 : ¬ ((⌊r⌋ : ℤ) : ℚ) < 1 := by exact_mod_cast hlt
      simp [JsNum.floor, JsNum.max, JsNum.lt, Magnitude.lt, JsNum.ofNat, h1,
        max_eq_left (not_lt.mp hlt)]

set_option exponentiation.threshold 2000 in
set_option maxRecDepth 20000 in
/-- Claim C5, as stated, fails.  With funds `1e308` and price `0.1`, both
positive and finite, the quotient overflows and `calculateQuantity` returns
`Infinity`, which is not an integer.  With funds `99999.90` and price `11.55`
it returns 8657, while the floor of the exact quotient is 8658: the division
is the binary64 one. -/
theorem calculateQuantity_binary64 :
    (parseFloat hugeFundsCredentials.OrderDetails.available_funds).isPositiveFinite = true ∧
      (parseFloat (.str "0.1")).isPositiveFinite = true ∧
      calculateQuantity hugeFundsCredentials (.str "0.1") = .val false .inf ∧
      calculateQuantity fractionalFundsCredentials (.str "11.55") = .ofNat 8657 ∧
      max ⌊(99999.90 : ℚ) / 11.55⌋ 1 = 8658 := by
  refine ⟨by decide, by decide, by decide, by decide, ?_⟩
  have h : (99999.90 : ℚ) / 11.55 = 8658 := by norm_num
  rw [h]
  simp

/-- Claim C5, amended.  For every positive price `p` and every non-negative
finite funds value `f` whose quotient `f / p`, computed in binary64, is a
finite `r`, `calculateQuantity(price)` is `max(floor(r), 1)`: an integer, at
least 1 whatever the funds. -/
theorem calculateQuantity_formula (credentials : Credentials) (price : JsVal) (f p r : ℚ)
    (hFunds : parseFloat credentials.OrderDetails.available_funds = .val false (.fin f))
    (hPrice : parseFloat price = .val false (.fin p)) (hPos : 0 < p)
    (hQuotient : JsNum.div (.val false (.fin f)) (.val false (.fin p)) =
      .val false (.fin r)) :
    ∃ quantity : ℤ, calculateQuantity credentials price = .val false (.fin (quantity : ℚ)) ∧
      quantity = max ⌊r⌋ 1 ∧ 1 ≤ quantity := by
  obtain ⟨hdiv, hq⟩ := calculateQuantity_of_quotient credentials price f p hFunds hPrice hPos
  rw [hdiv] at hQuotient
  have hr : roundMagnitude (f / p) = .fin r := by
    injection hQuotient
  rw [hr] at hq
  exact ⟨max ⌊r⌋ 1, hq, rfl, le_max_right _ _⟩

/-- Witness for the amended C5: funds `100000` and price `2500` give quantity
40; funds `100` and price `2500` give 1; funds `99999.90` and price `11.55`
give 8657, the binary64 quotient being just below 8658. -/
theorem calculateQuantity_formula_witness :
    calculateQuantity exampleCredentials (.num (.ofNat 2500)) = .ofNat 40 ∧
      calculateQuantity smallFundsCredentials (.num (.ofNat 2500)) = .ofNat 1 ∧
      calculateQuantity fractionalFundsCredentials (.str "11.55") = .ofNat 8657 := by
  obtain ⟨q1, h1, hq1, -⟩ := calculateQuantity_formula exampleCredentials (.num (.ofNat 2500))
    100000 2500 40 (by decide) (by decide) (by norm_num) (by decide)
  have e1 : q1 = 40 := by
    rw [hq1]
    norm_num
  rw [h1, e1]
  exact ⟨by simp [JsNum.ofNat], by decide, by decide⟩

theorem wellFormed_examples :
    ∀ item ∈ [relianceRecord, infyRecord], WellFormedRecord item := by
  intro item h
  simp only [List.mem_cons, List.mem_singleton, List.not_mem_nil, or_false] at h
  rcases h with rfl | rfl
  · exact ⟨_, _, rfl, rfl⟩
  · exact ⟨_, _, rfl, rfl⟩

/-- Claim C8.  For every successfully fetched instrument master (an array of
records with string names), every stock name and every upper-casing of the
runtime, `fetchSymbolToken` returns the trading symbol and token of the first
record, in list order, whose name equals the input once both are upper-cased,
and `null` when no record does.  Hence two inputs with the same upper-casing,
such as `infy` and `INFY`, resolve alike. -/
theorem fetchSymbolToken_resolves (w : World) (items : List JsVal) (stockSymbol : String)
    (hFetch : w.fetch jsonUrl = .response true (.ok (.arr items)))
    (hRecords : ∀ item ∈ items, WellFormedRecord item) :
    (fetchSymbolToken w (.str stockSymbol)).result =
        .ok (resolveSpec w.toUpperCase items stockSymbol) ∧
      ∀ other : String, w.toUpperCase other = w.toUpperCase stockSymbol →
        fetchSymbolToken w (.str other) = fetchSymbolToken w (.str stockSymbol) := by
  constructor
  · rw [fetchSymbolToken_of_master w stockSymbol items hFetch hRecords]
    unfold resolveSpec
    cases items.find? (nameMatches w.toUpperCase stockSymbol) <;> rfl
  · intro other h
    exact fetchSymbolToken_congr w _ _ (by simp [callToUpperCase, h])

/-- Witness for C8: with a record named `INFY` in the master, `infy` and `INFY`
both resolve to its symbol and token. -/
theorem fetchSymbolToken_resolves_witness :
    (fetchSymbolToken
        (exampleWorld (.response true (.ok (.arr [relianceRecord, infyRecord]))) .null)
        (.str "infy")).result =
        .ok (resolveSpec asciiUpperCase [relianceRecord, infyRecord] "infy") ∧
      resolveSpec asciiUpperCase [relianceRecord, infyRecord] "infy" =
        .obj [("tradingSymbol", .str "INFY-EQ"), ("symbolToken", .str "1594")] ∧
      fetchSymbolToken
          (exampleWorld (.response true (.ok (.arr [relianceRecord, infyRecord]))) .null)
          (.str "INFY") =
        fetchSymbolToken
          (exampleWorld (.response true (.ok (.arr [relianceRecord, infyRecord]))) .null)
          (.str "infy") :=
  ⟨(fetchSymbolToken_resolves _ [relianceRecord, infyRecord] "infy" rfl
      wellFormed_examples).1, rfl,
    (fetchSymbolToken_resolves _ [relianceRecord, infyRecord] "infy" rfl
      wellFormed_examples).2 "INFY" (by decide)⟩

/-- Upper-casing beyond ASCII: the stock name `café` resolves to the record
named `CAFÉ`. -/
theorem fetchSymbolToken_cafe :
    fetchSymbolToken cafeWorld (.str "café") =
      ⟨[.fetch jsonUrl],
        .ok (.obj [("tradingSymbol", .str "CAFE-EQ"), ("symbolToken", .str "77")])⟩ := by
  have hw : ∀ item ∈ [cafeRecord], WellFormedRecord item := by
    intro item h
    simp only [List.mem_singleton] at h
    subst h
    exact ⟨_, _, rfl, rfl⟩
  rw [fetchSymbolToken_of_master cafeWorld "café" [cafeRecord] rfl hw]
  rfl

theorem Run.startsWith_bind {α β : Type} (evs : List Event) (m : Run α) (f : α → Run β)
    (h : Run.StartsWith evs m) : Run.StartsWith evs (Run.bind m f) := by
  obtain ⟨t, r⟩ := m
  obtain ⟨rest, hrest⟩ := h
  simp only at hrest
  subst hrest
  cases r with
  | error e => exact ⟨rest, rfl⟩
  | ok a => exact ⟨rest ++ (f a).trace, by simp⟩

theorem Run.startsWith_tryCatch {α : Type} (evs : List Event) (m : Run α) (h : JsVal → Run α)
    (hm : Run.StartsWith evs m) : Run.StartsWith evs (Run.tryCatch m h) := by
  obtain ⟨t, r⟩ := m
  obtain ⟨rest, hrest⟩ := hm
  simp only at hrest
  subst hrest
  cases r with
  | ok a => exact ⟨rest, rfl⟩
  | error e => exact ⟨rest ++ (h e).trace, by simp⟩

theorem Run.startsWith_call {α : Type} (ev : Event) (out : Except JsVal α) :
    Run.StartsWith [ev] (Run.call ev out) :=
  ⟨[], rfl⟩

theorem Run.startsWith_prepend {α : Type} (p evs : List Event) (r : Run α)
    (h : Run.StartsWith evs r) : Run.StartsWith (p ++ evs) (Run.prepend p r) := by
  obtain ⟨rest, hrest⟩ := h
  exact ⟨rest, by simp [hrest]⟩

theorem fetchSymbolToken_startsWith (w : World) (stockSymbol : JsVal) :
    Run.StartsWith [.fetch jsonUrl] (fetchSymbolToken w stockSymbol) := by
  unfold fetchSymbolToken fetchJsonData
  simp only [Run.bind_eq, Run.pure_eq]
  apply Run.startsWith_bind
  apply Run.startsWith_tryCatch
  apply Run.startsWith_bind
  exact Run.startsWith_call _ _

theorem processStockOrder_continues (w : World) (credentials : Credentials)
    (s : String) (price totp data status sessionData : JsVal)
    (hAuth : AuthSucceeds w credentials totp data status sessionData) :
    Run.StartsWith (authEvents credentials totp ++ [.fetch jsonUrl])
      (processStockOrder w credentials (.str s) price) := by
  obtain ⟨jwt, hjwt⟩ := getProp_ok sessionData "jwtToken" hAuth.data_defined hAuth.data_not_null
  obtain ⟨rt, hrt⟩ := getProp_ok sessionData "refreshToken" hAuth.data_defined
    hAuth.data_not_null
  unfold processStockOrder
  simp only [Run.bind_eq, Run.pure_eq, Run.call, Run.lift, hAuth.totp_ok, hAuth.session_ok,
    hAuth.status_ok, isStrictlyFalse_eq_false _ hAuth.status_not_false, hAuth.data_ok, hjwt,
    hrt, callSplitFirst, Run.bind_mk_ok, Bool.false_eq_true, if_false]
  apply Run.startsWith_tryCatch
  have h := fetchSymbolToken_startsWith w (.str (splitFirst s))
  refine Run.startsWith_prepend [_] ([_] ++ [_]) _ ?_
  refine Run.startsWith_prepend [_] ([] ++ [_]) _ ?_
  refine Run.startsWith_prepend [] ([] ++ [_]) _ ?_
  refine Run.startsWith_prepend [] ([] ++ [_]) _ ?_
  refine Run.startsWith_prepend [] ([] ++ [_]) _ ?_
  refine Run.startsWith_prepend [] ([] ++ [_]) _ ?_
  refine Run.startsWith_prepend [] [_] _ ?_
  apply Run.startsWith_bind
  exact h

/-- Claim C3.  Once the one-time code is generated: if `generateSession`
throws, or returns a result whose `status` is `false`, `processStockOrder`
logs and stops, and neither the instrument-master fetch nor the order
submission is invoked.  For every other status value (the result carrying its
`data` field, the stock name being a string) the access and refresh tokens are
read without error and the pipeline goes on to fetch the instrument master. -/
theorem processStockOrder_authentication (w : World) (credentials : Credentials)
    (stockName price totp : JsVal)
    (hTotp : w.totpNow credentials.SmartAPI.demo_token = .ok totp) :
    (∀ e, w.generateSession credentials.SmartAPI.api_key credentials.SmartAPI.username
          credentials.SmartAPI.password totp = .error e →
        processStockOrder w credentials stockName price =
            ⟨authEvents credentials totp ++ [failureLog e], .ok ()⟩ ∧
          ∀ ev ∈ (processStockOrder w credentials stockName price).trace,
            ev.isFetch = false ∧ ev.isPlaceOrder = false) ∧
      (∀ data, w.generateSession credentials.SmartAPI.api_key credentials.SmartAPI.username
          credentials.SmartAPI.password totp = .ok data →
        getProp data "status" = .ok (.bool false) →
        processStockOrder w credentials stockName price =
            ⟨authEvents credentials totp ++ [.log .error "" [data]], .ok ()⟩ ∧
          ∀ ev ∈ (processStockOrder w credentials stockName price).trace,
            ev.isFetch = false ∧ ev.isPlaceOrder = false) ∧
      (∀ data status sessionData s,
        w.generateSession credentials.SmartAPI.api_key credentials.SmartAPI.username
          credentials.SmartAPI.password totp = .ok data →
        getProp data "status" = .ok status → status ≠ .bool false →
        getProp data "data" = .ok sessionData → sessionData ≠ .undefined →
        sessionData ≠ .null → stockName = .str s →
        (∃ authToken refreshToken, getProp sessionData "jwtToken" = .ok authToken ∧
          getProp sessionData "refreshToken" = .ok refreshToken) ∧
        Run.StartsWith (authEvents credentials totp ++ [.fetch jsonUrl])
          (processStockOrder w credentials stockName price)) := by
  refine ⟨?_, ?_, ?_⟩
  · intro e he
    have h := processStockOrder_session_throws w credentials stockName price totp e hTotp he
    refine ⟨h, ?_⟩
    rw [h]
    intro ev hev
    simp [authEvents, failureLog] at hev
    rcases hev with rfl | rfl | rfl <;> exact ⟨rfl, rfl⟩
  · intro data hd hs
    have h := processStockOrder_session_rejected w credentials stockName price totp data hTotp
      hd hs
    refine ⟨h, ?_⟩
    rw [h]
    intro ev hev
    simp [authEvents] at hev
    rcases hev with rfl | rfl | rfl <;> exact ⟨rfl, rfl⟩
  · intro data status sessionData s hd hs hne hdata h1 h2 hname
    subst hname
    obtain ⟨jwt, hjwt⟩ := getProp_ok sessionData "jwtToken" h1 h2
    obtain ⟨rt, hrt⟩ := getProp_ok sessionData "refreshToken" h1 h2
    exact ⟨⟨jwt, rt, hjwt, hrt⟩,
      processStockOrder_continues w credentials s price totp data status sessionData
        ⟨hTotp, hd, hs, hne, hdata, h1, h2⟩⟩

/-- Witness for C3: a session result with `status: false` stops the pipeline
after the authentication call; a session result with `status: true` and tokens
lets it go on to the instrument-master fetch. -/
theorem processStockOrder_authentication_witness :
    processStockOrder
        (sessionWorld (.ok (.obj [("status", .bool false), ("message", .str "Invalid totp")])))
        exampleCredentials (.str "RELIANCE-EQ") (.num (.ofNat 2500)) =
      ⟨authEvents exampleCredentials (.str "123456") ++
        [.log .error "" [.obj [("status", .bool false), ("message", .str "Invalid totp")]]],
        .ok ()⟩ ∧
      Run.StartsWith (authEvents exampleCredentials (.str "123456") ++ [.fetch jsonUrl])
        (processStockOrder (sessionWorld (.ok sessionResult)) exampleCredentials
          (.str "RELIANCE-EQ") (.num (.ofNat 2500))) :=
  ⟨((processStockOrder_authentication
      (sessionWorld (.ok (.obj [("status", .bool false), ("message", .str "Invalid totp")])))
      exampleCredentials (.str "RELIANCE-EQ") (.num (.ofNat 2500)) (.str "123456") rfl).2.1
      _ rfl rfl).1,
    ((processStockOrder_authentication (sessionWorld (.ok sessionResult)) exampleCredentials
      (.str "RELIANCE-EQ") (.num (.ofNat 2500)) (.str "123456") rfl).2.2
      sessionResult (.bool true)
      (.obj [("jwtToken", .str "jwt"), ("refreshToken", .str "refresh")]) "RELIANCE-EQ"
      rfl rfl (fun h => by cases h) rfl (fun h => by cases h) (fun h => by cases h) rfl).2⟩

/-- Claim C6.  Every order request that `processStockOrder` passes to the
broker has order type `MARKET`, price `0`, square-off `0`, stop-loss `0`,
variety `NORMAL`, exchange `NSE` and duration `DAY`, whatever the alert, the
configuration and the resolved instrument; the transaction and product types
are the configured ones and the quantity is the computed one. -/
theorem order_request_is_market_order (w : World) (credentials : Credentials)
    (stockName price apiKey : JsVal) (params : OrderParams)
    (h : Event.placeOrder apiKey params ∈
      (processStockOrder w credentials stockName price).trace) :
    params.ordertype = "MARKET" ∧ params.price = "0" ∧ params.squareoff = "0" ∧
      params.stoploss = "0" ∧ params.variety = "NORMAL" ∧ params.exchange = "NSE" ∧
      params.duration = "DAY" ∧
      params.transactiontype = credentials.OrderDetails.transaction_type ∧
      params.producttype = credentials.OrderDetails.product_type ∧
      params.quantity = calculateQuantity credentials price := by
  have hall := processStockOrder_all
    (fun ev => ∀ k p, ev = Event.placeOrder k p →
      p.ordertype = "MARKET" ∧ p.price = "0" ∧ p.squareoff = "0" ∧
      p.stoploss = "0" ∧ p.variety = "NORMAL" ∧ p.exchange = "NSE" ∧
      p.duration = "DAY" ∧
      p.transactiontype = credentials.OrderDetails.transaction_type ∧
      p.producttype = credentials.OrderDetails.product_type ∧
      p.quantity = calculateQuantity credentials price)
    w credentials stockName price
    (fun _ k p hk => by cases hk)
    (fun _ _ _ _ k p hk => by cases hk)
    (fun _ k p hk => by cases hk)
    (fun _ _ _ k p hk => by cases hk)
    (fun _ _ k p hk => by
      cases hk
      exact ⟨rfl, rfl, rfl, rfl, rfl, rfl, rfl, rfl, rfl, rfl⟩)
  exact hall _ h apiKey params rfl

theorem truthy_of_parseFloat_pos (price : JsVal) (p : ℚ)
    (h : parseFloat price = .val false (.fin p)) (hp : 0 < p) : truthy price = true := by
  cases price with
  | undefined => simp [parseFloat] at h
  | null => simp [parseFloat] at h
  | bool b => simp [parseFloat] at h
  | obj fields => simp [parseFloat] at h
  | arr items => rfl
  | num n =>
    simp only [parseFloat] at h
    simp only [truthy]
    cases hn : n.toDouble with
    | nan =>
      rw [hn] at h
      cases h
    | val negative m =>
      rw [hn] at h
      cases m with
      | inf => cases negative <;> cases h
      | fin q =>
        cases negative with
        | false =>
          simp only [JsNum.reparse] at h
          injection h with _ hm
          injection hm with hq
          simp [JsNum.truthy, hq, ne_of_gt hp]
        | true =>
          by_cases h0 : q = 0
          · simp only [JsNum.reparse, h0, if_true] at h
            injection h with _ hm
            injection hm with hq
            exact absurd hq.symm (ne_of_gt hp)
          · simp only [JsNum.reparse, h0, if_false] at h
            cases h
  | str s =>
    by_cases hs : s = ""
    · subst hs
      have h0 : parseFloat (.str "") = .nan := by decide
      rw [h0] at h
      cases h
    · simp [truthy, hs]

theorem authSucceeds_example (master : FetchOutcome) (delivered : JsVal) :
    AuthSucceeds (exampleWorld master delivered) exampleCredentials (.str "123456")
      sessionResult (.bool true)
      (.obj [("jwtToken", .str "jwt"), ("refreshToken", .str "refresh")]) :=
  ⟨rfl, rfl, rfl, (fun h => by cases h), rfl, (fun h => by cases h), (fun h => by cases h)⟩

theorem handler_of_processStockOrder (w : World) (credentials : Credentials)
    (fields : List (String × JsVal)) (stockName price : JsVal) (t : List Event)
    (hName : fields.lookup "stockName" = some stockName)
    (hPrice : fields.lookup "price" = some price)
    (hn : truthy stockName = true) (hp : truthy price = true)
    (hRun : processStockOrder w credentials stockName price = ⟨t, .ok ()⟩) :
    handler w credentials ⟨"POST", .obj fields⟩ =
      ⟨receiptLogs w (.obj fields) ++ t, .ok ackResponse⟩ := by
  rw [handler_post]
  simp [hName, hPrice, hn, hp, hRun]

/-- Claim C2.  For every alert with a non-empty stock name and a present price,
with authentication succeeding: if the instrument-master fetch throws, or
returns a non-success status, or delivers records none of which matches the
stock name, then `fetchSymbolToken` returns `null`, the handler's trace
contains the fetch but no order submission, and the response is the 200
acknowledgement. -/
theorem not_found_submits_no_order (w : World) (credentials : Credentials)
    (fields : List (String × JsVal)) (s : String)
    (price totp data status sessionData : JsVal)
    (hName : fields.lookup "stockName" = some (.str s)) (hNonempty : s ≠ "")
    (hPrice : fields.lookup "price" = some price) (hTruthy : truthy price = true)
    (hAuth : AuthSucceeds w credentials totp data status sessionData)
    (hNotFound : (∃ e, w.fetch jsonUrl = .failed e) ∨
      (∃ json, w.fetch jsonUrl = .response false json) ∨
      (∃ items, w.fetch jsonUrl = .response true (.ok (.arr items)) ∧
        (∀ item ∈ items, WellFormedRecord item) ∧
        ∀ item ∈ items, nameMatches w.toUpperCase (splitFirst s) item = false)) :
    (fetchSymbolToken w (.str (splitFirst s))).result = .ok .null ∧
      Event.fetch jsonUrl ∈ (handler w credentials ⟨"POST", .obj fields⟩).trace ∧
      (∀ ev ∈ (handler w credentials ⟨"POST", .obj fields⟩).trace, ev.isPlaceOrder = false) ∧
      (handler w credentials ⟨"POST", .obj fields⟩).result =
        .ok ⟨200, [], .json (.obj [("message", .str "Alert received successfully")])⟩ := by
  have key : ∃ tf, fetchSymbolToken w (.str (splitFirst s)) = ⟨tf, .ok .null⟩ ∧
      Event.fetch jsonUrl ∈ tf ∧ ∀ ev ∈ tf, ev.isPlaceOrder = false := by
    rcases hNotFound with ⟨e, he⟩ | ⟨json, hj⟩ | ⟨items, hi, hw, hno⟩
    · refine ⟨_, fetchSymbolToken_fetch_failed w _ e he, by simp, ?_⟩
      intro ev hev
      simp at hev
      rcases hev with rfl | rfl | rfl <;> rfl
    · refine ⟨_, fetchSymbolToken_not_ok w _ json hj, by simp, ?_⟩
      intro ev hev
      simp at hev
      rcases hev with rfl | rfl | rfl <;> rfl
    · have hnone : items.find? (nameMatches w.toUpperCase (splitFirst s)) = none := by
        rw [List.find?_eq_none]
        intro item hitem
        simp [hno item hitem]
      have h := fetchSymbolToken_of_master w (splitFirst s) items hi hw
      rw [hnone] at h
      refine ⟨_, h, by simp, ?_⟩
      intro ev hev
      simp at hev
      rcases hev with rfl | rfl <;> rfl
  obtain ⟨tf, hF, hmem, hall⟩ := key
  have hRun := processStockOrder_not_found w credentials s price totp data status sessionData
    tf hAuth hF
  have hH := handler_of_processStockOrder w credentials fields (.str s) price _ hName hPrice
    (truthy_str s hNonempty) hTruthy hRun
  refine ⟨by rw [hF], ?_, ?_, ?_⟩
  · rw [hH]
    simp [hmem]
  · rw [hH]
    intro ev hev
    simp [receiptLogs, authEvents, failureLog] at hev
    rcases hev with rfl | rfl | rfl | rfl | hev | rfl
    · rfl
    · rfl
    · rfl
    · rfl
    · exact hall ev hev
    · rfl
  · rw [hH]
    rfl

/-- Witness for C2: the instrument-master fetch rejects with a network error. -/
theorem not_found_submits_no_order_witness :
    (fetchSymbolToken (exampleWorld (.failed (.str "network error")) acceptedResponse)
        (.str (splitFirst "RELIANCE-EQ"))).result = .ok .null ∧
      ∀ ev ∈ (handler (exampleWorld (.failed (.str "network error")) acceptedResponse)
          exampleCredentials ⟨"POST", .obj exampleAlert⟩).trace, ev.isPlaceOrder = false :=
  have h := not_found_submits_no_order
    (exampleWorld (.failed (.str "network error")) acceptedResponse) exampleCredentials
    exampleAlert "RELIANCE-EQ" (.num (.ofNat 2500)) _ _ _ _ rfl (by decide) rfl
    (by decide) (authSucceeds_example _ _) (Or.inl ⟨_, rfl⟩)
  ⟨h.1, h.2.2.1⟩

theorem fetchSymbolToken_of_match (w : World) (s : String) (items : List JsVal) (recordFields : List (String × JsVal))
    (hFetch : w.fetch jsonUrl = .response true (.ok (.arr items)))
    (hRecords : ∀ item ∈ items, WellFormedRecord item)
    (hMatch : items.find? (nameMatches w.toUpperCase (splitFirst s)) =
      some (.obj recordFields)) :
    fetchSymbolToken w (.str (splitFirst s)) =
      ⟨[.fetch jsonUrl], .ok (.obj [("tradingSymbol",
          (recordFields.lookup "symbol").getD .undefined),
        ("symbolToken", (recordFields.lookup "token").getD .undefined)])⟩ := by
  have h := fetchSymbolToken_of_master w (splitFirst s) items hFetch hRecords
  rw [hMatch] at h
  exact h

theorem calculateQuantity_example :
    calculateQuantity exampleCredentials (.num (.ofNat 2500)) = .ofNat 40 := by
  decide

theorem find_example (master : FetchOutcome) (delivered : JsVal) :
    [relianceRecord, infyRecord].find?
        (nameMatches (exampleWorld master delivered).toUpperCase (splitFirst "RELIANCE-EQ")) =
      some (.obj [("name", .str "RELIANCE"), ("symbol", .str "RELIANCE-EQ"),
        ("token", .str "2885")]) := by
  rfl

theorem acceptedResponse_native : ∀ text, acceptedResponse ≠ .str text := by
  intro text h
  cases h

/-- The run of `processStockOrder` on the alert `RELIANCE-EQ` at price 2500
when the broker delivers its response as a native structure. -/
theorem processStockOrder_example :
    processStockOrder
        (exampleWorld (.response true (.ok (.arr [relianceRecord, infyRecord])))
          acceptedResponse)
        exampleCredentials (.str "RELIANCE-EQ") (.num (.ofNat 2500)) =
      ⟨authEvents exampleCredentials (.str "123456") ++ [.fetch jsonUrl] ++
        [placingLog (.str "RELIANCE-EQ") (.ofNat 40),
          .placeOrder (.str "key")
            (expectedOrder exampleCredentials (.str "RELIANCE-EQ") (.str "2885") (.ofNat 40)),
          successLog (.str "04-Nov-2026 09:15:00")], .ok ()⟩ := by
  have h := processStockOrder_native_response
    (exampleWorld (.response true (.ok (.arr [relianceRecord, infyRecord]))) acceptedResponse)
    exampleCredentials "RELIANCE-EQ" (.num (.ofNat 2500)) _ _ _ _ (.str "RELIANCE-EQ")
    (.str "2885") [.fetch jsonUrl] acceptedResponse _ (.str "04-Nov-2026 09:15:00")
    (authSucceeds_example _ _)
    (fetchSymbolToken_of_match _ _ _ _ rfl wellFormed_examples (find_example _ _))
    rfl rfl acceptedResponse_native rfl rfl
  rw [calculateQuantity_example] at h
  rw [h]
  rfl

/-- Witness for C6: the order request submitted for the alert `RELIANCE-EQ` at
price 2500. -/
theorem order_request_is_market_order_witness :
    (expectedOrder exampleCredentials (.str "RELIANCE-EQ") (.str "2885") (.ofNat 40)).ordertype
        = "MARKET" ∧
      (expectedOrder exampleCredentials (.str "RELIANCE-EQ") (.str "2885") (.ofNat 40)).price
        = "0" :=
  have h := order_request_is_market_order
    (exampleWorld (.response true (.ok (.arr [relianceRecord, infyRecord]))) acceptedResponse)
    exampleCredentials (.str "RELIANCE-EQ") (.num (.ofNat 2500)) (.str "key")
    (expectedOrder exampleCredentials (.str "RELIANCE-EQ") (.str "2885") (.ofNat 40))
    (by rw [processStockOrder_example]; simp)
  ⟨h.1, h.2.1⟩

/-- Claim C4, as stated, fails: the master holds a record whose name matches
`RELIANCE` (its token is the empty string), authentication succeeds and the
broker would answer with a creation timestamp, yet the guard on the token stops
the pipeline and no order is submitted. -/
theorem empty_token_record_submits_no_order :
    nameMatches asciiUpperCase (splitFirst "RELIANCE-EQ") emptyTokenRecord = true ∧
      (exampleWorld (.response true (.ok (.arr [emptyTokenRecord]))) acceptedResponse).fetch
          jsonUrl = .response true (.ok (.arr [emptyTokenRecord])) ∧
      AuthSucceeds
        (exampleWorld (.response true (.ok (.arr [emptyTokenRecord]))) acceptedResponse)
        exampleCredentials (.str "123456") sessionResult (.bool true)
        (.obj [("jwtToken", .str "jwt"), ("refreshToken", .str "refresh")]) ∧
      (∀ apiKey params,
        (exampleWorld (.response true (.ok (.arr [emptyTokenRecord])))
          acceptedResponse).placeOrderFullResponse apiKey params = .ok acceptedResponse) ∧
      (getProp acceptedResponse "data" >>= fun d => getProp d "orderCreationTime") =
        .ok (.str "04-Nov-2026 09:15:00") ∧
      handler (exampleWorld (.response true (.ok (.arr [emptyTokenRecord]))) acceptedResponse)
          exampleCredentials ⟨"POST", .obj exampleAlert⟩ =
        ⟨receiptLogs
            (exampleWorld (.response true (.ok (.arr [emptyTokenRecord]))) acceptedResponse)
            (.obj exampleAlert) ++
          (authEvents exampleCredentials (.str "123456") ++ [.fetch jsonUrl] ++
            [.log .error "Symbol Token not found for the stock symbol." []]),
          .ok ackResponse⟩ ∧
      (handler (exampleWorld (.response true (.ok (.arr [emptyTokenRecord]))) acceptedResponse)
          exampleCredentials ⟨"POST", .obj exampleAlert⟩).trace.countP Event.isPlaceOrder
        = 0 := by
  have hw : ∀ item ∈ [emptyTokenRecord], WellFormedRecord item := by
    intro item h
    simp only [List.mem_singleton] at h
    subst h
    exact ⟨_, _, rfl, rfl⟩
  have hRun := processStockOrder_falsy_token
    (exampleWorld (.response true (.ok (.arr [emptyTokenRecord]))) acceptedResponse)
    exampleCredentials "RELIANCE-EQ" (.num (.ofNat 2500)) _ _ _ _ (.str "RELIANCE-EQ")
    (.str "") [.fetch jsonUrl] (authSucceeds_example _ _)
    (fetchSymbolToken_of_match _ "RELIANCE-EQ" [emptyTokenRecord]
      [("name", .str "RELIANCE"), ("symbol", .str "RELIANCE-EQ"), ("token", .str "")]
      rfl hw rfl) rfl
  have hH := handler_of_processStockOrder
    (exampleWorld (.response true (.ok (.arr [emptyTokenRecord]))) acceptedResponse)
    exampleCredentials exampleAlert (.str "RELIANCE-EQ") (.num (.ofNat 2500)) _ rfl rfl
    (by decide) (by decide) hRun
  refine ⟨rfl, rfl, authSucceeds_example _ _, fun _ _ => rfl, rfl, hH, ?_⟩
  rw [hH]
  simp [receiptLogs, authEvents, List.countP_cons, Event.isPlaceOrder]

/-- Claim C4, amended.  For every alert with a non-empty stock name and a
positive price: if authentication succeeds, the fetched master contains a
record whose name equals, ignoring case, the part of the stock name before the
first `-`, the first such record has a truthy (non-empty) token, and the broker
returns, as a native structure, a response carrying a truthy
`data.orderCreationTime`, then exactly one order is submitted, with that
record's symbol and token and the quantity
`max(floor(availableFunds / price), 1)` that `calculateQuantity` computes,
success is logged with the timestamp, and the response is the 200
acknowledgement. -/
theorem matching_instrument_order_submitted (w : World) (credentials : Credentials)
    (fields : List (String × JsVal)) (s : String) (price : JsVal) (p : ℚ)
    (totp data status sessionData : JsVal) (items : List JsVal)
    (recordFields : List (String × JsVal)) (response responseData orderTime : JsVal)
    (hName : fields.lookup "stockName" = some (.str s)) (hNonempty : s ≠ "")
    (hPrice : fields.lookup "price" = some price)
    (hParse : parseFloat price = .val false (.fin p)) (hPos : 0 < p)
    (hAuth : AuthSucceeds w credentials totp data status sessionData)
    (hFetch : w.fetch jsonUrl = .response true (.ok (.arr items)))
    (hRecords : ∀ item ∈ items, WellFormedRecord item)
    (hMatch : items.find? (nameMatches w.toUpperCase (splitFirst s)) =
      some (.obj recordFields))
    (hToken : truthy ((recordFields.lookup "token").getD .undefined) = true)
    (hPlace : w.placeOrderFullResponse credentials.SmartAPI.api_key
      (expectedOrder credentials ((recordFields.lookup "symbol").getD .undefined)
        ((recordFields.lookup "token").getD .undefined)
        (calculateQuantity credentials price)) = .ok response)
    (hNative : ∀ text, response ≠ .str text)
    (hData : getProp response "data" = .ok responseData)
    (hTime : getProp responseData "orderCreationTime" = .ok orderTime)
    (hCarried : truthy orderTime = true) :
    handler w credentials ⟨"POST", .obj fields⟩ =
        ⟨receiptLogs w (.obj fields) ++
          (authEvents credentials totp ++ [.fetch jsonUrl] ++
            [placingLog (.str s) (calculateQuantity credentials price),
              .placeOrder credentials.SmartAPI.api_key
                (expectedOrder credentials ((recordFields.lookup "symbol").getD .undefined)
                  ((recordFields.lookup "token").getD .undefined)
                  (calculateQuantity credentials price)),
              successLog orderTime]),
          .ok ⟨200, [], .json (.obj [("message", .str "Alert received successfully")])⟩⟩ ∧
      (handler w credentials ⟨"POST", .obj fields⟩).trace.countP Event.isPlaceOrder = 1 ∧
      calculateQuantity credentials price =
        JsNum.max (JsNum.floor
          (((parseFloat credentials.OrderDetails.available_funds).orElse (.ofNat 0)).div
            (parseFloat price))) (.ofNat 1) := by
  have hRun := processStockOrder_native_response w credentials s price totp data status
    sessionData _ _ [.fetch jsonUrl] response responseData orderTime hAuth
    (fetchSymbolToken_of_match w s items recordFields hFetch hRecords hMatch) hToken hPlace
    hNative hData hTime
  rw [if_pos hCarried] at hRun
  have hH := handler_of_processStockOrder w credentials fields (.str s) price _ hName hPrice
    (truthy_str s hNonempty) (truthy_of_parseFloat_pos price p hParse hPos) hRun
  refine ⟨hH, ?_, rfl⟩
  rw [hH]
  simp [receiptLogs, authEvents, placingLog, successLog, List.countP_cons, Event.isPlaceOrder]

/-- Witness for the amended C4: the alert `{stockName: "RELIANCE-EQ", price:
2500}` looks up `RELIANCE`, and one order for 40 shares of the record's symbol
and token is submitted. -/
theorem matching_instrument_order_submitted_witness :
    splitFirst "RELIANCE-EQ" = "RELIANCE" ∧
      calculateQuantity exampleCredentials (.num (.ofNat 2500)) = .ofNat 40 ∧
      (handler
        (exampleWorld (.response true (.ok (.arr [relianceRecord, infyRecord])))
          acceptedResponse)
        exampleCredentials ⟨"POST", .obj exampleAlert⟩).trace.countP Event.isPlaceOrder = 1 :=
  ⟨by decide, by decide,
    (matching_instrument_order_submitted
      (exampleWorld (.response true (.ok (.arr [relianceRecord, infyRecord])))
        acceptedResponse)
      exampleCredentials exampleAlert "RELIANCE-EQ" (.num (.ofNat 2500)) 2500 _ _ _ _
      [relianceRecord, infyRecord] _ acceptedResponse _ (.str "04-Nov-2026 09:15:00")
      rfl (by decide) rfl (by decide) (by norm_num)
      (authSucceeds_example _ _) rfl wellFormed_examples (find_example _ _) rfl rfl
      acceptedResponse_native rfl rfl rfl).2.1⟩

/-- Claim C7, evaluated on the code.  The broker answers the same order with
the same response, once as a native structure and once as the JSON text that
`JSON.parse` decodes to it.  The native delivery is reported as a success with
the creation timestamp; the encoded delivery ends in the catch block, because
the assignment to the constant `response` throws: the order has been submitted
and is reported as failed. -/
theorem encoded_response_reported_as_failure :
    (exampleWorld (.response true (.ok (.arr [relianceRecord, infyRecord])))
        (.str acceptedResponseText)).jsonParse acceptedResponseText = .ok acceptedResponse ∧
      processStockOrder
          (exampleWorld (.response true (.ok (.arr [relianceRecord, infyRecord])))
            acceptedResponse)
          exampleCredentials (.str "RELIANCE-EQ") (.num (.ofNat 2500)) =
        ⟨authEvents exampleCredentials (.str "123456") ++ [.fetch jsonUrl] ++
          [placingLog (.str "RELIANCE-EQ") (.ofNat 40),
            .placeOrder (.str "key")
              (expectedOrder exampleCredentials (.str "RELIANCE-EQ") (.str "2885") (.ofNat 40)),
            successLog (.str "04-Nov-2026 09:15:00")], .ok ()⟩ ∧
      processStockOrder
          (exampleWorld (.response true (.ok (.arr [relianceRecord, infyRecord])))
            (.str acceptedResponseText))
          exampleCredentials (.str "RELIANCE-EQ") (.num (.ofNat 2500)) =
        ⟨authEvents exampleCredentials (.str "123456") ++ [.fetch jsonUrl] ++
          [placingLog (.str "RELIANCE-EQ") (.ofNat 40),
            .placeOrder (.str "key")
              (expectedOrder exampleCredentials (.str "RELIANCE-EQ") (.str "2885") (.ofNat 40)),
            failureLog (typeError "Assignment to constant variable.")], .ok ()⟩ := by
  have hparse : (exampleWorld (.response true (.ok (.arr [relianceRecord, infyRecord])))
      (.str acceptedResponseText)).jsonParse acceptedResponseText = .ok acceptedResponse := by
    simp [exampleWorld]
  refine ⟨hparse, processStockOrder_example, ?_⟩
  have h := processStockOrder_string_response
    (exampleWorld (.response true (.ok (.arr [relianceRecord, infyRecord])))
      (.str acceptedResponseText))
    exampleCredentials "RELIANCE-EQ" (.num (.ofNat 2500)) _ _ _ _ (.str "RELIANCE-EQ")
    (.str "2885") [.fetch jsonUrl] acceptedResponseText (authSucceeds_example _ _)
    (fetchSymbolToken_of_match _ _ _ _ rfl wellFormed_examples (find_example _ _)) rfl rfl
  rw [hparse, calculateQuantity_example] at h
  rw [h]
  rfl

end Webhook
